import Mathlib

/-!
Cushon service layer: domain entities, repository ports and services

A shallow embedding of `internal/core` (domain, output ports, services).

Conventions of the embedding

* A Go `error` is a `GoError`, identified by its message; a nil error is `none`.
* A Go pointer `*T` that may be nil is an `Option T`; records are passed by value.
  Repositories are taken not to write through the pointers they are handed.
* A repository is a record of state-passing functions over a store type `σ`.
* A runtime panic (nil pointer dereference) is the outcome `Outcome.panicked`.
* `uuid.New()` is an input of the constructors: the identifier it would generate.
-/

namespace Cushon

/-! ## Go values -/

/-- A Go error value as built by `errors.New`, identified by its message. -/
structure GoError where
  msg : String
deriving DecidableEq, Repr

/-- The Go function `errors.New`. -/
def errors.New (msg : String) : GoError := ⟨msg⟩

/-- How a Go call ends: it returns a value, or the goroutine panics. -/
inductive Outcome (α : Type) where
  | returned (a : α)
  | panicked
deriving DecidableEq, Repr

/-- The type `decimal.Decimal` of shopspring/decimal (external): the number
`value * 10 ^ exp`, held as an integer coefficient and a decimal exponent. -/
structure Decimal where
  value : Int
  exp : Int
deriving DecidableEq, Repr

/-- The method `Decimal.IsZero` of shopspring/decimal: the sign of the coefficient is 0. -/
def Decimal.IsZero (d : Decimal) : Bool := d.value == 0

/-- The rational number a decimal denotes. -/
def Decimal.toRat (d : Decimal) : ℚ := (d.value : ℚ) * (10 : ℚ) ^ d.exp

/-- The value of `uuid.New()` (google/uuid, external). The code only uses its text form
`String()`, a 36 character string; the model keeps that this text is not empty. -/
structure UUID where
  text : String
  text_ne : text ≠ ""

/-- The method `UUID.String`. -/
def UUID.String (u : UUID) : String := u.text

/-! ## Domain (`internal/core/domain`) -/

/-- The Go type `FundName`, a named string type. -/
structure FundName where
  val : String
deriving DecidableEq, Repr

/-- The constant `CushonEquitiesFund`. -/
def CushonEquitiesFund : FundName := ⟨"Cushon Equities Fund"⟩

/-- The method `FundName.IsValid` (fund.go): a switch with one case. -/
def FundName.IsValid (f : FundName) : Bool :=
  if f = CushonEquitiesFund then true else false

/-- The struct `Transaction` (transaction.go). -/
structure Transaction where
  ID : String
  UserID : String
  Amount : Decimal
  FundName : FundName
deriving DecidableEq, Repr

/-- The constructor `NewTransaction` (transaction.go); `id` is the value of `uuid.New()`. -/
def NewTransaction (id : UUID) (userID : String) (amount : Decimal) (fundName : FundName) :
    Transaction :=
  { ID := id.String, UserID := userID, Amount := amount, FundName := fundName }

/-- The struct `DirectUser` (direct_user.go). -/
structure DirectUser where
  ID : String
  Name : String
deriving DecidableEq, Repr

/-- The constructor `NewDirectUser` (direct_user.go); `id` is the value of `uuid.New()`. -/
def NewDirectUser (id : UUID) (name : String) : DirectUser :=
  { ID := id.String, Name := name }

/-! ## Output ports (`internal/core/ports/output`) -/

/-- The interface `TransactionRepository` over a store of type `σ`. -/
structure TransactionRepository (σ : Type) where
  Save : Transaction → σ → Option GoError × σ
  FindByID : String → σ → (Option Transaction × Option GoError) × σ
  FindByUserID : String → σ → (List Transaction × Option GoError) × σ
  Update : Transaction → σ → Option GoError × σ
  Delete : String → σ → Option GoError × σ

/-- The interface `DirectUserRepository` over a store of type `σ`. -/
structure DirectUserRepository (σ : Type) where
  Save : DirectUser → σ → Option GoError × σ
  FindByID : String → σ → (Option DirectUser × Option GoError) × σ
  Update : DirectUser → σ → Option GoError × σ
  Delete : String → σ → Option GoError × σ

/-! ## Services (`internal/core/services`) -/

/-- The struct `TransactionService` (transaction_service.go). -/
structure TransactionService (σ : Type) where
  transactionRepo : TransactionRepository σ

/-- The function `NewTransactionService`. -/
def NewTransactionService {σ : Type} (transactionRepo : TransactionRepository σ) :
    TransactionService σ :=
  { transactionRepo := transactionRepo }

/-- The method `TransactionService.CreateTransaction` (transaction_service.go:26-47). -/
def TransactionService.CreateTransaction {σ : Type} (s : TransactionService σ) (id : UUID)
    (userID : String) (amount : Decimal) (fundName : FundName) (st : σ) :
    (Option Transaction × Option GoError) × σ :=
  if userID = "" then
    ((none, some (errors.New "user ID is required")), st)
  else if amount.IsZero then
    ((none, some (errors.New "amount cannot be zero")), st)
  else if !fundName.IsValid then
    ((none, some (errors.New "invalid fund name")), st)
  else
    let transaction := NewTransaction id userID amount fundName
    match s.transactionRepo.Save transaction st with
    | (some err, st1) => ((none, some err), st1)
    | (none, st1) => ((some transaction, none), st1)

/-- The method `TransactionService.GetTransaction` (transaction_service.go:50-65). -/
def TransactionService.GetTransaction {σ : Type} (s : TransactionService σ) (id : String)
    (st : σ) : (Option Transaction × Option GoError) × σ :=
  if id = "" then
    ((none, some (errors.New "transaction ID is required")), st)
  else
    match s.transactionRepo.FindByID id st with
    | ((_, some _), st1) => ((none, some (errors.New "transaction not found")), st1)
    | ((none, none), st1) => ((none, some (errors.New "transaction not found")), st1)
    | ((some transaction, none), st1) => ((some transaction, none), st1)

/-- The method `TransactionService.GetUserTransactions` (transaction_service.go:68-79). -/
def TransactionService.GetUserTransactions {σ : Type} (s : TransactionService σ)
    (userID : String) (st : σ) : (List Transaction × Option GoError) × σ :=
  if userID = "" then
    (([], some (errors.New "user ID is required")), st)
  else
    match s.transactionRepo.FindByUserID userID st with
    | ((_, some err), st1) => (([], some err), st1)
    | ((transactions, none), st1) => ((transactions, none), st1)

/-- The method `TransactionService.UpdateTransaction` (transaction_service.go:82-106).
The writes to `existingTransaction.Amount` and `.FundName` dereference the pointer
that `FindByID` returned: when it is nil the call panics. -/
def TransactionService.UpdateTransaction {σ : Type} (s : TransactionService σ)
    (transaction : Option Transaction) (st : σ) : Outcome (Option GoError) × σ :=
  match transaction with
  | none => (.returned (some (errors.New "transaction cannot be nil")), st)
  | some transaction =>
    if transaction.ID = "" then
      (.returned (some (errors.New "transaction ID is required")), st)
    else if !transaction.FundName.IsValid then
      (.returned (some (errors.New "invalid fund name")), st)
    else
      match s.transactionRepo.FindByID transaction.ID st with
      | ((_, some err), st1) => (.returned (some err), st1)
      | ((none, none), st1) => (.panicked, st1)
      | ((some existingTransaction, none), st1) =>
        let existingTransaction :=
          { existingTransaction with
            Amount := transaction.Amount, FundName := transaction.FundName }
        match s.transactionRepo.Update existingTransaction st1 with
        | (err, st2) => (.returned err, st2)

/-- The method `TransactionService.DeleteTransaction` (transaction_service.go:109-121).
The record that `FindByID` returns is discarded, only its error is tested. -/
def TransactionService.DeleteTransaction {σ : Type} (s : TransactionService σ) (id : String)
    (st : σ) : Option GoError × σ :=
  if id = "" then
    (some (errors.New "transaction ID is required"), st)
  else
    match s.transactionRepo.FindByID id st with
    | ((_, some err), st1) => (some err, st1)
    | ((_, none), st1) => s.transactionRepo.Delete id st1

/-- The struct `DirectUserService` (direct_user_service.go). -/
structure DirectUserService (σ : Type) where
  directUserRepo : DirectUserRepository σ

/-- The function `NewDirectUserService`. -/
def NewDirectUserService {σ : Type} (directUserRepo : DirectUserRepository σ) :
    DirectUserService σ :=
  { directUserRepo := directUserRepo }

/-- The method `DirectUserService.CreateDirectUser` (direct_user_service.go:24-39). -/
def DirectUserService.CreateDirectUser {σ : Type} (s : DirectUserService σ) (id : UUID)
    (name : String) (st : σ) : (Option DirectUser × Option GoError) × σ :=
  if name = "" then
    ((none, some (errors.New "name is required")), st)
  else
    let directUser := NewDirectUser id name
    match s.directUserRepo.Save directUser st with
    | (some err, st1) => ((none, some err), st1)
    | (none, st1) => ((some directUser, none), st1)

/-- The method `DirectUserService.GetDirectUser` (direct_user_service.go:42-53):
the result of `FindByID` is returned as it is whenever its error is nil. -/
def DirectUserService.GetDirectUser {σ : Type} (s : DirectUserService σ) (id : String)
    (st : σ) : (Option DirectUser × Option GoError) × σ :=
  if id = "" then
    ((none, some (errors.New "direct user ID is required")), st)
  else
    match s.directUserRepo.FindByID id st with
    | ((_, some err), st1) => ((none, some err), st1)
    | ((directUser, none), st1) => ((directUser, none), st1)

/-- The method `DirectUserService.UpdateDirectUser` (direct_user_service.go:56-70). -/
def DirectUserService.UpdateDirectUser {σ : Type} (s : DirectUserService σ)
    (user : Option DirectUser) (st : σ) : Option GoError × σ :=
  match user with
  | none => (some (errors.New "direct user cannot be nil"), st)
  | some user =>
    if user.ID = "" then
      (some (errors.New "direct user ID is required"), st)
    else if user.Name = "" then
      (some (errors.New "name is required"), st)
    else
      s.directUserRepo.Update user st

/-- The method `DirectUserService.DeleteDirectUser` (direct_user_service.go:73-85).
The record that `FindByID` returns is discarded, only its error is tested. -/
def DirectUserService.DeleteDirectUser {σ : Type} (s : DirectUserService σ) (id : String)
    (st : σ) : Option GoError × σ :=
  if id = "" then
    (some (errors.New "direct user ID is required"), st)
  else
    match s.directUserRepo.FindByID id st with
    | ((_, some err), st1) => (some err, st1)
    | ((_, none), st1) => s.directUserRepo.Delete id st1

/-! ## Error kinds

The services build every error with `errors.New`; the kinds of the error taxonomy
(validation, not found) are told apart by message, as the HTTP handlers do with
`switch err.Error()`. -/

/-- The messages of the errors the two services raise when they reject their input. -/
def validationMessages : List String :=
  ["user ID is required", "amount cannot be zero", "invalid fund name",
   "transaction ID is required", "transaction cannot be nil",
   "name is required", "direct user ID is required", "direct user cannot be nil"]

/-- An error raised by the input checks of a service. -/
def GoError.IsValidation (e : GoError) : Bool := validationMessages.contains e.msg

/-- An error reporting that the record asked for does not exist. -/
def GoError.IsNotFound (e : GoError) : Bool :=
  e.msg == "transaction not found" || e.msg == "direct user not found"

/-! ## Recording the calls a service makes on its repository -/

/-- One call on a `TransactionRepository`, with its argument. -/
inductive TransactionCall where
  | Save (transaction : Transaction)
  | FindByID (id : String)
  | FindByUserID (userID : String)
  | Update (transaction : Transaction)
  | Delete (id : String)
deriving DecidableEq, Repr

/-- The repository `r` with a log: every call is appended to the log and then
answered by `r` on the store. -/
def TransactionRepository.traced {σ : Type} (r : TransactionRepository σ) :
    TransactionRepository (σ × List TransactionCall) where
  Save t st := ((r.Save t st.1).1, ((r.Save t st.1).2, st.2 ++ [.Save t]))
  FindByID id st := ((r.FindByID id st.1).1, ((r.FindByID id st.1).2, st.2 ++ [.FindByID id]))
  FindByUserID u st :=
    ((r.FindByUserID u st.1).1, ((r.FindByUserID u st.1).2, st.2 ++ [.FindByUserID u]))
  Update t st := ((r.Update t st.1).1, ((r.Update t st.1).2, st.2 ++ [.Update t]))
  Delete id st := ((r.Delete id st.1).1, ((r.Delete id st.1).2, st.2 ++ [.Delete id]))

/-- One call on a `DirectUserRepository`, with its argument. -/
inductive DirectUserCall where
  | Save (user : DirectUser)
  | FindByID (id : String)
  | Update (user : DirectUser)
  | Delete (id : String)
deriving DecidableEq, Repr

/-- The repository `r` with a log: every call is appended to the log and then
answered by `r` on the store. -/
def DirectUserRepository.traced {σ : Type} (r : DirectUserRepository σ) :
    DirectUserRepository (σ × List DirectUserCall) where
  Save u st := ((r.Save u st.1).1, ((r.Save u st.1).2, st.2 ++ [.Save u]))
  FindByID id st := ((r.FindByID id st.1).1, ((r.FindByID id st.1).2, st.2 ++ [.FindByID id]))
  Update u st := ((r.Update u st.1).1, ((r.Update u st.1).2, st.2 ++ [.Update u]))
  Delete id st := ((r.Delete id st.1).1, ((r.Delete id st.1).2, st.2 ++ [.Delete id]))

/-! ## Concrete repositories used to run the services -/

/-- A transaction store keeping its rows in a list and answering the way the MySQL
adapter does on a healthy connection: the lookup of a missing id is `(nil, nil)`
(the `sql.ErrNoRows` branch of `FindByID`), `UPDATE` sets amount and fund of the rows
with the id, `DELETE` removes them, and both succeed when no row has the id. -/
def transactionRows : TransactionRepository (List Transaction) where
  Save t rows := (none, rows ++ [t])
  FindByID id rows := ((rows.find? (fun r => r.ID == id), none), rows)
  FindByUserID u rows := ((rows.filter (fun r => r.UserID == u), none), rows)
  Update t rows :=
    (none, rows.map (fun r =>
      if r.ID = t.ID then { r with Amount := t.Amount, FundName := t.FundName } else r))
  Delete id rows := (none, rows.filter (fun r => r.ID != id))

/-- A direct user store keeping its rows in a list and answering the way the MySQL
adapter does on a healthy connection: the lookup of a missing id is `(nil, nil)`
(the `sql.ErrNoRows` branch of `FindByID`), `UPDATE` of a missing id is the error
"direct user not found", `DELETE` of a missing id succeeds. -/
def directUserRows : DirectUserRepository (List DirectUser) where
  Save u rows :=
    if (rows.find? (fun r => r.ID == u.ID)).isSome then
      (some (errors.New "direct user already exists"), rows)
    else (none, rows ++ [u])
  FindByID id rows := ((rows.find? (fun r => r.ID == id), none), rows)
  Update u rows :=
    if rows.any (fun r => r.ID == u.ID) then
      (none, rows.map (fun r => if r.ID = u.ID then { r with Name := u.Name } else r))
    else (some (errors.New "direct user not found"), rows)
  Delete id rows := (none, rows.filter (fun r => r.ID != id))

/-- A repository whose store cannot be reached: every call fails with the error `e`. -/
def failingTransactions (e : GoError) : TransactionRepository Unit where
  Save _ st := (some e, st)
  FindByID _ st := ((none, some e), st)
  FindByUserID _ st := (([], some e), st)
  Update _ st := (some e, st)
  Delete _ st := (some e, st)

/-- A sample identifier, the text of a version 4 UUID. -/
def sampleUUID : UUID := ⟨"6ba7b810-9dad-41d1-80b4-00c04fd430c8", by decide⟩

/-- A sample stored transaction: 25000.0000 in the Cushon Equities Fund. -/
def sampleTransaction : Transaction :=
  { ID := "tx-1", UserID := "user123", Amount := ⟨250000000, -4⟩,
    FundName := CushonEquitiesFund }

/-- A direct user repository whose store cannot be reached: every call fails with `e`. -/
def failingDirectUsers (e : GoError) : DirectUserRepository Unit where
  Save _ st := (some e, st)
  FindByID _ st := ((none, some e), st)
  Update _ st := (some e, st)
  Delete _ st := (some e, st)

/-- A transaction store that can be read and not written: lookups answer from the rows,
`Save`, `Update` and `Delete` fail with `e` and leave the rows as they are. -/
def readOnlyTransactions (e : GoError) : TransactionRepository (List Transaction) where
  Save _ rows := (some e, rows)
  FindByID id rows := ((rows.find? (fun r => r.ID == id), none), rows)
  FindByUserID u rows := ((rows.filter (fun r => r.UserID == u), none), rows)
  Update _ rows := (some e, rows)
  Delete _ rows := (some e, rows)

/-- A direct user store that can be read and not written: lookups answer from the rows,
`Save`, `Update` and `Delete` fail with `e` and leave the rows as they are. -/
def readOnlyDirectUsers (e : GoError) : DirectUserRepository (List DirectUser) where
  Save _ rows := (some e, rows)
  FindByID id rows := ((rows.find? (fun r => r.ID == id), none), rows)
  Update _ rows := (some e, rows)
  Delete _ rows := (some e, rows)

/-- A transaction repository that answers `FindByUserID` with both a list and an error,
as the port allows (rows read before the failure `e`); the other calls fail with `e`. -/
def partialReadTransactions (e : GoError) : TransactionRepository (List Transaction) where
  Save _ rows := (some e, rows)
  FindByID _ rows := ((none, some e), rows)
  FindByUserID u rows := ((rows.filter (fun r => r.UserID == u), some e), rows)
  Update _ rows := (some e, rows)
  Delete _ rows := (some e, rows)

/-! ## The in-memory repositories (`services/test_utils.go`,
`services/transaction_service_test.go`)

A Go map is an association list with distinct keys; the order of its entries stands for
the unspecified order in which Go ranges over a map. The Go maps hold pointers; here the
records are held by value. -/

/-- The struct `MockDirectUserRepository` (test_utils.go:10-12). -/
structure MockDirectUserRepository where
  users : AList (fun _ : String => DirectUser)

/-- The function `NewMockDirectUserRepository` (test_utils.go:14-18). -/
def NewMockDirectUserRepository : MockDirectUserRepository := ⟨∅⟩

/-- The method `MockDirectUserRepository.Save` (test_utils.go:20-32). -/
def MockDirectUserRepository.Save (user : DirectUser) (m : MockDirectUserRepository) :
    Option GoError × MockDirectUserRepository :=
  if user.ID = "" then (some (errors.New "user ID is required"), m)
  else if user.Name = "" then (some (errors.New "name is required"), m)
  else (none, ⟨m.users.insert user.ID user⟩)

/-- The method `MockDirectUserRepository.FindByID` (test_utils.go:34-42). -/
def MockDirectUserRepository.FindByID (id : String) (m : MockDirectUserRepository) :
    (Option DirectUser × Option GoError) × MockDirectUserRepository :=
  if id = "" then ((none, some (errors.New "user ID is required")), m)
  else
    match m.users.lookup id with
    | some user => ((some user, none), m)
    | none => ((none, some (errors.New "direct user not found")), m)

/-- The method `MockDirectUserRepository.Update` (test_utils.go:56-71). -/
def MockDirectUserRepository.Update (user : DirectUser) (m : MockDirectUserRepository) :
    Option GoError × MockDirectUserRepository :=
  if user.ID = "" then (some (errors.New "user ID is required"), m)
  else if user.Name = "" then (some (errors.New "name is required"), m)
  else
    match m.users.lookup user.ID with
    | none => (some (errors.New "direct user not found"), m)
    | some _ => (none, ⟨m.users.insert user.ID user⟩)

/-- The method `MockDirectUserRepository.Delete` (test_utils.go:73-82). -/
def MockDirectUserRepository.Delete (id : String) (m : MockDirectUserRepository) :
    Option GoError × MockDirectUserRepository :=
  if id = "" then (some (errors.New "user ID is required"), m)
  else
    match m.users.lookup id with
    | none => (some (errors.New "direct user not found"), m)
    | some _ => (none, ⟨m.users.erase id⟩)

/-- The in-memory direct user repository as an implementation of the port. -/
def MockDirectUserRepository.asRepository : DirectUserRepository MockDirectUserRepository where
  Save := MockDirectUserRepository.Save
  FindByID := MockDirectUserRepository.FindByID
  Update := MockDirectUserRepository.Update
  Delete := MockDirectUserRepository.Delete

/-- The stores the in-memory direct user repository can hold: the map field is not
exported, so a store is what `NewMockDirectUserRepository` built and the methods of the
repository changed. -/
inductive MockDirectUserRepository.Reachable : MockDirectUserRepository → Prop where
  | new : Reachable NewMockDirectUserRepository
  | Save (user : DirectUser) {m : MockDirectUserRepository} :
      Reachable m → Reachable (MockDirectUserRepository.Save user m).2
  | Update (user : DirectUser) {m : MockDirectUserRepository} :
      Reachable m → Reachable (MockDirectUserRepository.Update user m).2
  | Delete (id : String) {m : MockDirectUserRepository} :
      Reachable m → Reachable (MockDirectUserRepository.Delete id m).2

/-- The struct `MockTransactionRepository` (transaction_service_test.go:13-15). -/
structure MockTransactionRepository where
  transactions : AList (fun _ : String => Transaction)

/-- The function `NewMockTransactionRepository` (transaction_service_test.go:17-21). -/
def NewMockTransactionRepository : MockTransactionRepository := ⟨∅⟩

/-- The method `MockTransactionRepository.Save` (transaction_service_test.go:23-26). -/
def MockTransactionRepository.Save (transaction : Transaction)
    (m : MockTransactionRepository) : Option GoError × MockTransactionRepository :=
  (none, ⟨m.transactions.insert transaction.ID transaction⟩)

/-- The method `MockTransactionRepository.FindByID` (transaction_service_test.go:28-33). -/
def MockTransactionRepository.FindByID (id : String) (m : MockTransactionRepository) :
    (Option Transaction × Option GoError) × MockTransactionRepository :=
  match m.transactions.lookup id with
  | some transaction => ((some transaction, none), m)
  | none => ((none, some (errors.New "transaction not found")), m)

/-- The method `MockTransactionRepository.FindByUserID`
(transaction_service_test.go:35-43): the stored transactions of the user, in the order
of the range over the map. -/
def MockTransactionRepository.FindByUserID (userID : String)
    (m : MockTransactionRepository) :
    (List Transaction × Option GoError) × MockTransactionRepository :=
  (((m.transactions.entries.map (fun entry => entry.2)).filter
      (fun transaction => transaction.UserID == userID), none), m)

/-- The method `MockTransactionRepository.Update` (transaction_service_test.go:45-51). -/
def MockTransactionRepository.Update (transaction : Transaction)
    (m : MockTransactionRepository) : Option GoError × MockTransactionRepository :=
  match m.transactions.lookup transaction.ID with
  | none => (some (errors.New "transaction not found"), m)
  | some _ => (none, ⟨m.transactions.insert transaction.ID transaction⟩)

/-- The method `MockTransactionRepository.Delete` (transaction_service_test.go:53-59). -/
def MockTransactionRepository.Delete (id : String) (m : MockTransactionRepository) :
    Option GoError × MockTransactionRepository :=
  match m.transactions.lookup id with
  | none => (some (errors.New "transaction not found"), m)
  | some _ => (none, ⟨m.transactions.erase id⟩)

/-- The in-memory transaction repository as an implementation of the port. -/
def MockTransactionRepository.asRepository :
    TransactionRepository MockTransactionRepository where
  Save := MockTransactionRepository.Save
  FindByID := MockTransactionRepository.FindByID
  FindByUserID := MockTransactionRepository.FindByUserID
  Update := MockTransactionRepository.Update
  Delete := MockTransactionRepository.Delete

/-! ## Sequences of service calls -/

/-- One call of a `TransactionService` operation with its arguments; for
`CreateTransaction` also the identifier `uuid.New()` generates during the call. -/
inductive TransactionRequest where
  | CreateTransaction (id : UUID) (userID : String) (amount : Decimal) (fundName : FundName)
  | GetTransaction (id : String)
  | GetUserTransactions (userID : String)
  | UpdateTransaction (transaction : Option Transaction)
  | DeleteTransaction (id : String)

/-- The store after one call of the service, whatever the call returned. -/
def TransactionService.serve {σ : Type} (s : TransactionService σ) :
    TransactionRequest → σ → σ
  | .CreateTransaction id userID amount fundName, st =>
      (s.CreateTransaction id userID amount fundName st).2
  | .GetTransaction id, st => (s.GetTransaction id st).2
  | .GetUserTransactions userID, st => (s.GetUserTransactions userID st).2
  | .UpdateTransaction transaction, st => (s.UpdateTransaction transaction st).2
  | .DeleteTransaction id, st => (s.DeleteTransaction id st).2

/-- The store after a finite sequence of calls of the service, made one after another. -/
def TransactionService.serveAll {σ : Type} (s : TransactionService σ)
    (requests : List TransactionRequest) (st : σ) : σ :=
  requests.foldl (fun st request => s.serve request st) st

/-- One call of a `DirectUserService` operation with its arguments; for
`CreateDirectUser` also the identifier `uuid.New()` generates during the call. -/
inductive DirectUserRequest where
  | CreateDirectUser (id : UUID) (name : String)
  | GetDirectUser (id : String)
  | UpdateDirectUser (user : Option DirectUser)
  | DeleteDirectUser (id : String)

/-- The store after one call of the service, whatever the call returned. -/
def DirectUserService.serve {σ : Type} (s : DirectUserService σ) :
    DirectUserRequest → σ → σ
  | .CreateDirectUser id name, st => (s.CreateDirectUser id name st).2
  | .GetDirectUser id, st => (s.GetDirectUser id st).2
  | .UpdateDirectUser user, st => (s.UpdateDirectUser user st).2
  | .DeleteDirectUser id, st => (s.DeleteDirectUser id st).2

/-- The store after a finite sequence of calls of the service, made one after another. -/
def DirectUserService.serveAll {σ : Type} (s : DirectUserService σ)
    (requests : List DirectUserRequest) (st : σ) : σ :=
  requests.foldl (fun st request => s.serve request st) st

/-- Every stored transaction names a fund of the known set. -/
def MockTransactionRepository.KnownFunds (m : MockTransactionRepository) : Prop :=
  ∀ (key : String) (transaction : Transaction),
    m.transactions.lookup key = some transaction → transaction.FundName.IsValid = true

/-- Every stored user has a non-empty Name and a non-empty ID. -/
def MockDirectUserRepository.NamedUsers (m : MockDirectUserRepository) : Prop :=
  ∀ (key : String) (user : DirectUser),
    m.users.lookup key = some user → user.Name ≠ "" ∧ user.ID ≠ ""

/-- Every stored user is stored under its own ID: the key of the map entry is the ID
of the record. -/
def MockDirectUserRepository.OwnKeys (m : MockDirectUserRepository) : Prop :=
  ∀ (key : String) (user : DirectUser), m.users.lookup key = some user → user.ID = key

/-- A second sample identifier. -/
def otherUUID : UUID := ⟨"7c9e6679-7425-40de-944b-e07fc1f90ae7", by decide⟩

/-- A sample stored user. -/
def sampleUser : DirectUser := { ID := "u-1", Name := "John Doe" }

/-- The stores the in-memory transaction repository holds when it is used through the
service: what a finite sequence of TransactionService calls makes of the empty store of
`NewMockTransactionRepository`. -/
def MockTransactionRepository.Served (m : MockTransactionRepository) : Prop :=
  ∃ requests : List TransactionRequest,
    m = (NewTransactionService MockTransactionRepository.asRepository).serveAll requests
      NewMockTransactionRepository

/-! ## The MySQL adapters (`adapters/secondary/persistence/mysql`)

The MySQL server and the `database/sql` handle are external. They are modelled by a
database state and by the effect of the statements the adapters issue on it: a table is
a map from the id column to the other columns, compared exactly. -/

/-- The columns `user_id`, `amount`, `fund_name` of a row of the table `transactions`. -/
structure TransactionColumns where
  user_id : String
  amount : Decimal
  fund_name : String
deriving DecidableEq, Repr

/-- The state of the database behind a `*sql.DB` handle: the two tables, the driver
error with which every statement fails while the connection is broken (`fault`), and
the connection parameter `clientFoundRows` of go-sql-driver/mysql. -/
structure Database where
  direct_users : AList (fun _ : String => String)
  transactions : AList (fun _ : String => TransactionColumns)
  fault : Option GoError
  clientFoundRows : Bool

/-- The value of `clientFoundRows` on the connections of `NewConnection`
(connection.go:21-27): the DSN sets only `parseTime=true`, so the parameter has its
default, false, and an `UPDATE` reports the rows it changed, not the rows it matched. -/
def NewConnection.clientFoundRows : Bool := false

/-- What `db.QueryRow(query, id).Scan(dest...)` returns: the columns of the row, the
sentinel `sql.ErrNoRows`, or another error. -/
inductive ScanResult (ρ : Type) where
  | row (columns : ρ)
  | ErrNoRows
  | failed (err : GoError)
deriving DecidableEq, Repr

/-- The `sql.Result` of an `Exec`: what `RowsAffected()` returns. -/
structure SqlResult where
  rowsAffected : Int
  rowsAffectedErr : Option GoError
deriving DecidableEq, Repr

/-- The statement `SELECT id, name FROM direct_users WHERE id = ?`, scanned. -/
def Database.queryRowDirectUser (id : String) (db : Database) : ScanResult (String × String) :=
  match db.fault with
  | some err => .failed err
  | none =>
    match db.direct_users.lookup id with
    | none => .ErrNoRows
    | some name => .row (id, name)

/-- The statement `SELECT id, user_id, amount, fund_name FROM transactions WHERE id = ?`,
scanned. -/
def Database.queryRowTransaction (id : String) (db : Database) :
    ScanResult (String × TransactionColumns) :=
  match db.fault with
  | some err => .failed err
  | none =>
    match db.transactions.lookup id with
    | none => .ErrNoRows
    | some columns => .row (id, columns)

/-- The statement `UPDATE direct_users SET name = ? WHERE id = ?`. MySQL changes the row
with the id when its name differs; the rows affected are the rows changed, or the rows
matched when the connection has `clientFoundRows`. -/
def Database.execUpdateDirectUser (name id : String) (db : Database) :
    Except GoError SqlResult × Database :=
  match db.fault with
  | some err => (.error err, db)
  | none =>
    match db.direct_users.lookup id with
    | none => (.ok ⟨0, none⟩, db)
    | some old =>
      if old = name then (.ok ⟨if db.clientFoundRows then 1 else 0, none⟩, db)
      else (.ok ⟨1, none⟩, { db with direct_users := db.direct_users.insert id name })

/-- The statement `DELETE FROM direct_users WHERE id = ?`. -/
def Database.execDeleteDirectUser (id : String) (db : Database) :
    Except GoError SqlResult × Database :=
  match db.fault with
  | some err => (.error err, db)
  | none =>
    match db.direct_users.lookup id with
    | none => (.ok ⟨0, none⟩, db)
    | some _ => (.ok ⟨1, none⟩, { db with direct_users := db.direct_users.erase id })

/-- The statement `DELETE FROM transactions WHERE id = ?`. -/
def Database.execDeleteTransaction (id : String) (db : Database) :
    Except GoError SqlResult × Database :=
  match db.fault with
  | some err => (.error err, db)
  | none =>
    match db.transactions.lookup id with
    | none => (.ok ⟨0, none⟩, db)
    | some _ => (.ok ⟨1, none⟩, { db with transactions := db.transactions.erase id })

/-- The method `DirectUserRepository.FindByID` of the MySQL adapter
(direct_user_repository.go:40-55). -/
def mysql.DirectUserRepository.FindByID (id : String) (db : Database) :
    (Option DirectUser × Option GoError) × Database :=
  match db.queryRowDirectUser id with
  | .ErrNoRows => ((none, none), db)
  | .failed err => ((none, some err), db)
  | .row (cid, cname) => ((some { ID := cid, Name := cname }, none), db)

/-- The method `DirectUserRepository.Update` of the MySQL adapter
(direct_user_repository.go:58-78). -/
def mysql.DirectUserRepository.Update (user : DirectUser) (db : Database) :
    Option GoError × Database :=
  match db.execUpdateDirectUser user.Name user.ID with
  | (.error err, db1) => (some err, db1)
  | (.ok result, db1) =>
    match result.rowsAffectedErr with
    | some err => (some err, db1)
    | none =>
      if result.rowsAffected = 0 then (some (errors.New "direct user not found"), db1)
      else (none, db1)

/-- The method `DirectUserRepository.Delete` of the MySQL adapter
(direct_user_repository.go:81-88): the result of `Exec` is discarded. -/
def mysql.DirectUserRepository.Delete (id : String) (db : Database) :
    Option GoError × Database :=
  match db.execDeleteDirectUser id with
  | (.error err, db1) => (some err, db1)
  | (.ok _, db1) => (none, db1)

/-- The method `TransactionRepository.FindByID` of the MySQL adapter
(transaction_repository.go:48-71). -/
def mysql.TransactionRepository.FindByID (id : String) (db : Database) :
    (Option Transaction × Option GoError) × Database :=
  match db.queryRowTransaction id with
  | .ErrNoRows => ((none, none), db)
  | .failed err => ((none, some err), db)
  | .row (cid, columns) =>
    ((some { ID := cid, UserID := columns.user_id, Amount := columns.amount,
             FundName := ⟨columns.fund_name⟩ }, none), db)

/-- The method `TransactionRepository.Delete` of the MySQL adapter
(transaction_repository.go:127-131): the result of `Exec` is discarded. -/
def mysql.TransactionRepository.Delete (id : String) (db : Database) :
    Option GoError × Database :=
  match db.execDeleteTransaction id with
  | (.error err, db1) => (some err, db1)
  | (.ok _, db1) => (none, db1)

/-- A sample database on a connection of `NewConnection`: John Doe under "u-1" and a
transaction of 25000.0000 under "tx-1". -/
def sampleDatabase : Database :=
  { direct_users := (∅ : AList (fun _ : String => String)).insert "u-1" "John Doe",
    transactions := (∅ : AList (fun _ : String => TransactionColumns)).insert "tx-1"
      ⟨"user123", ⟨250000000, -4⟩, "Cushon Equities Fund"⟩,
    fault := none,
    clientFoundRows := NewConnection.clientFoundRows }

/-! ## Input ports (`internal/core/ports/input`) -/

/-- The interface `input.TransactionService` over a state of type `σ`. -/
structure input.TransactionService (σ : Type) where
  CreateTransaction : String → Decimal → FundName → σ →
    (Option Transaction × Option GoError) × σ
  GetTransaction : String → σ → (Option Transaction × Option GoError) × σ
  GetUserTransactions : String → σ → (List Transaction × Option GoError) × σ
  UpdateTransaction : Option Transaction → σ → Outcome (Option GoError) × σ
  DeleteTransaction : String → σ → Option GoError × σ

/-- The interface `input.DirectUserService` over a state of type `σ`. -/
structure input.DirectUserService (σ : Type) where
  CreateDirectUser : String → σ → (Option DirectUser × Option GoError) × σ
  GetDirectUser : String → σ → (Option DirectUser × Option GoError) × σ
  UpdateDirectUser : Option DirectUser → σ → Option GoError × σ
  DeleteDirectUser : String → σ → Option GoError × σ

/-- The service `TransactionService` as an implementation of its input port, as
`NewTransactionService` returns it; `id` is the identifier `uuid.New()` generates if
`CreateTransaction` is called. -/
def TransactionService.asPort {σ : Type} (s : TransactionService σ) (id : UUID) :
    input.TransactionService σ where
  CreateTransaction := s.CreateTransaction id
  GetTransaction := s.GetTransaction
  GetUserTransactions := s.GetUserTransactions
  UpdateTransaction := s.UpdateTransaction
  DeleteTransaction := s.DeleteTransaction

/-- The service `DirectUserService` as an implementation of its input port; `id` is the
identifier `uuid.New()` generates if `CreateDirectUser` is called. -/
def DirectUserService.asPort {σ : Type} (s : DirectUserService σ) (id : UUID) :
    input.DirectUserService σ where
  CreateDirectUser := s.CreateDirectUser id
  GetDirectUser := s.GetDirectUser
  UpdateDirectUser := s.UpdateDirectUser
  DeleteDirectUser := s.DeleteDirectUser

/-- One call on an `input.TransactionService`, with its arguments. -/
inductive TransactionServiceCall where
  | CreateTransaction (userID : String) (amount : Decimal) (fundName : FundName)
  | GetTransaction (id : String)
  | GetUserTransactions (userID : String)
  | UpdateTransaction (transaction : Option Transaction)
  | DeleteTransaction (id : String)
deriving DecidableEq, Repr

/-- The service `s` with a log: every call is appended to the log and then answered
by `s` on the state. -/
def input.TransactionService.traced {σ : Type} (s : input.TransactionService σ) :
    input.TransactionService (σ × List TransactionServiceCall) where
  CreateTransaction u a f st :=
    ((s.CreateTransaction u a f st.1).1,
      ((s.CreateTransaction u a f st.1).2, st.2 ++ [.CreateTransaction u a f]))
  GetTransaction id st :=
    ((s.GetTransaction id st.1).1, ((s.GetTransaction id st.1).2, st.2 ++ [.GetTransaction id]))
  GetUserTransactions u st :=
    ((s.GetUserTransactions u st.1).1,
      ((s.GetUserTransactions u st.1).2, st.2 ++ [.GetUserTransactions u]))
  UpdateTransaction t st :=
    ((s.UpdateTransaction t st.1).1,
      ((s.UpdateTransaction t st.1).2, st.2 ++ [.UpdateTransaction t]))
  DeleteTransaction id st :=
    ((s.DeleteTransaction id st.1).1,
      ((s.DeleteTransaction id st.1).2, st.2 ++ [.DeleteTransaction id]))

/-! ## HTTP handlers (`adapters/primary/http`)

A handler is modelled from the point where gin has matched the route: its inputs are
the path parameter and the outcome of `c.ShouldBindJSON`, its result is the status and
the value handed to `c.JSON` (or the bare status of `c.Status`). -/

/-- The constant `http.StatusOK`. -/
def http.StatusOK : Nat := 200
/-- The constant `http.StatusCreated`. -/
def http.StatusCreated : Nat := 201
/-- The constant `http.StatusNoContent`. -/
def http.StatusNoContent : Nat := 204
/-- The constant `http.StatusBadRequest`. -/
def http.StatusBadRequest : Nat := 400
/-- The constant `http.StatusNotFound`. -/
def http.StatusNotFound : Nat := 404
/-- The constant `http.StatusInternalServerError`. -/
def http.StatusInternalServerError : Nat := 500

/-- The value a handler writes as the body of its response. -/
inductive Body where
  | empty
  | error (message : String)
  | transaction (transaction : Option Transaction)
  | transactions (transactions : List Transaction)
  | directUser (directUser : Option DirectUser)
  | fundNames (fundNames : List String)
deriving DecidableEq, Repr

/-- The response of a handler: `c.JSON(status, body)` or `c.Status(status)`. -/
structure Response where
  status : Nat
  body : Body
deriving DecidableEq, Repr

/-- The struct `TransactionHandler` (transaction_handler.go:14-16). -/
structure TransactionHandler (σ : Type) where
  transactionService : input.TransactionService σ

/-- The function `NewTransactionHandler`. -/
def NewTransactionHandler {σ : Type} (transactionService : input.TransactionService σ) :
    TransactionHandler σ :=
  { transactionService := transactionService }

/-- The method `TransactionHandler.GetFundNames` (transaction_handler.go:41-46). -/
def TransactionHandler.GetFundNames {σ : Type} (_h : TransactionHandler σ) : Response :=
  let fundNames := [CushonEquitiesFund.val]
  ⟨http.StatusOK, .fundNames fundNames⟩

/-- The request body of `TransactionHandler.CreateTransaction`. -/
structure CreateTransactionRequest where
  UserID : String
  Amount : Decimal
  FundName : String
deriving DecidableEq, Repr

/-- The method `TransactionHandler.CreateTransaction` (transaction_handler.go:49-72). -/
def TransactionHandler.CreateTransaction {σ : Type} (h : TransactionHandler σ)
    (bound : Except GoError CreateTransactionRequest) (st : σ) : Response × σ :=
  match bound with
  | .error err => (⟨http.StatusBadRequest, .error err.msg⟩, st)
  | .ok request =>
    match h.transactionService.CreateTransaction request.UserID request.Amount
        ⟨request.FundName⟩ st with
    | ((_, some err), st1) => (⟨http.StatusInternalServerError, .error err.msg⟩, st1)
    | ((transaction, none), st1) => (⟨http.StatusCreated, .transaction transaction⟩, st1)

/-- The method `TransactionHandler.GetTransaction` (transaction_handler.go:75-91). -/
def TransactionHandler.GetTransaction {σ : Type} (h : TransactionHandler σ) (id : String)
    (st : σ) : Response × σ :=
  match h.transactionService.GetTransaction id st with
  | ((_, some err), st1) =>
    if err.msg = "transaction ID is required" then
      (⟨http.StatusBadRequest, .error err.msg⟩, st1)
    else if err.msg = "transaction not found" then
      (⟨http.StatusNotFound, .error err.msg⟩, st1)
    else (⟨http.StatusInternalServerError, .error "internal server error"⟩, st1)
  | ((transaction, none), st1) => (⟨http.StatusOK, .transaction transaction⟩, st1)

/-- The method `TransactionHandler.GetUserTransactions` (transaction_handler.go:94-103). -/
def TransactionHandler.GetUserTransactions {σ : Type} (h : TransactionHandler σ)
    (userID : String) (st : σ) : Response × σ :=
  match h.transactionService.GetUserTransactions userID st with
  | ((_, some err), st1) => (⟨http.StatusInternalServerError, .error err.msg⟩, st1)
  | ((transactions, none), st1) => (⟨http.StatusOK, .transactions transactions⟩, st1)

/-- The request body of `TransactionHandler.UpdateTransaction`. -/
structure UpdateTransactionRequest where
  Amount : Decimal
  FundName : String
deriving DecidableEq, Repr

/-- The method `TransactionHandler.UpdateTransaction` (transaction_handler.go:106-147).
The writes to `transaction.Amount` and `.FundName` dereference the pointer that the
service returned: when it is nil the call panics. -/
def TransactionHandler.UpdateTransaction {σ : Type} (h : TransactionHandler σ)
    (id : String) (bound : Except GoError UpdateTransactionRequest) (st : σ) :
    Outcome Response × σ :=
  match bound with
  | .error err => (.returned ⟨http.StatusBadRequest, .error err.msg⟩, st)
  | .ok request =>
    match h.transactionService.GetTransaction id st with
    | ((_, some err), st1) =>
      if err.msg = "transaction ID is required" then
        (.returned ⟨http.StatusBadRequest, .error err.msg⟩, st1)
      else if err.msg = "transaction not found" then
        (.returned ⟨http.StatusNotFound, .error err.msg⟩, st1)
      else (.returned ⟨http.StatusInternalServerError, .error "internal server error"⟩, st1)
    | ((none, none), st1) => (.panicked, st1)
    | ((some transaction, none), st1) =>
      let transaction :=
        { transaction with Amount := request.Amount, FundName := ⟨request.FundName⟩ }
      match h.transactionService.UpdateTransaction (some transaction) st1 with
      | (.panicked, st2) => (.panicked, st2)
      | (.returned (some err), st2) =>
        if err.msg = "transaction not found" then
          (.returned ⟨http.StatusNotFound, .error err.msg⟩, st2)
        else if err.msg = "invalid fund name" then
          (.returned ⟨http.StatusBadRequest, .error err.msg⟩, st2)
        else
          (.returned ⟨http.StatusInternalServerError, .error "internal server error"⟩, st2)
      | (.returned none, st2) =>
        (.returned ⟨http.StatusOK, .transaction (some transaction)⟩, st2)

/-- The method `TransactionHandler.DeleteTransaction` (transaction_handler.go:150-165). -/
def TransactionHandler.DeleteTransaction {σ : Type} (h : TransactionHandler σ)
    (id : String) (st : σ) : Response × σ :=
  match h.transactionService.DeleteTransaction id st with
  | (some err, st1) =>
    if err.msg = "transaction ID is required" then
      (⟨http.StatusBadRequest, .error err.msg⟩, st1)
    else if err.msg = "transaction not found" then
      (⟨http.StatusNotFound, .error err.msg⟩, st1)
    else (⟨http.StatusInternalServerError, .error "internal server error"⟩, st1)
  | (none, st1) => (⟨http.StatusNoContent, .empty⟩, st1)

/-- The struct `DirectUserHandler` (direct_user_handler.go:13-15). -/
structure DirectUserHandler (σ : Type) where
  directUserService : input.DirectUserService σ

/-- The function `NewDirectUserHandler`. -/
def NewDirectUserHandler {σ : Type} (directUserService : input.DirectUserService σ) :
    DirectUserHandler σ :=
  { directUserService := directUserService }

/-- The request body of the create and update handlers of direct users. -/
structure DirectUserRequestBody where
  Name : String
deriving DecidableEq, Repr

/-- The method `DirectUserHandler.CreateDirectUser` (direct_user_handler.go:36-53). -/
def DirectUserHandler.CreateDirectUser {σ : Type} (h : DirectUserHandler σ)
    (bound : Except GoError DirectUserRequestBody) (st : σ) : Response × σ :=
  match bound with
  | .error err => (⟨http.StatusBadRequest, .error err.msg⟩, st)
  | .ok request =>
    match h.directUserService.CreateDirectUser request.Name st with
    | ((_, some err), st1) => (⟨http.StatusInternalServerError, .error err.msg⟩, st1)
    | ((directUser, none), st1) => (⟨http.StatusCreated, .directUser directUser⟩, st1)

/-- The method `DirectUserHandler.GetDirectUser` (direct_user_handler.go:56-65). -/
def DirectUserHandler.GetDirectUser {σ : Type} (h : DirectUserHandler σ) (id : String)
    (st : σ) : Response × σ :=
  match h.directUserService.GetDirectUser id st with
  | ((_, some _), st1) => (⟨http.StatusNotFound, .error "direct user not found"⟩, st1)
  | ((directUser, none), st1) => (⟨http.StatusOK, .directUser directUser⟩, st1)

/-- The method `DirectUserHandler.UpdateDirectUser` (direct_user_handler.go:68-90). -/
def DirectUserHandler.UpdateDirectUser {σ : Type} (h : DirectUserHandler σ) (id : String)
    (bound : Except GoError DirectUserRequestBody) (st : σ) : Response × σ :=
  match bound with
  | .error err => (⟨http.StatusBadRequest, .error err.msg⟩, st)
  | .ok request =>
    let directUser : DirectUser := { ID := id, Name := request.Name }
    match h.directUserService.UpdateDirectUser (some directUser) st with
    | (some err, st1) => (⟨http.StatusInternalServerError, .error err.msg⟩, st1)
    | (none, st1) => (⟨http.StatusOK, .directUser (some directUser)⟩, st1)

/-- The method `DirectUserHandler.DeleteDirectUser` (direct_user_handler.go:93-101). -/
def DirectUserHandler.DeleteDirectUser {σ : Type} (h : DirectUserHandler σ) (id : String)
    (st : σ) : Response × σ :=
  match h.directUserService.DeleteDirectUser id st with
  | (some err, st1) => (⟨http.StatusInternalServerError, .error err.msg⟩, st1)
  | (none, st1) => (⟨http.StatusNoContent, .empty⟩, st1)

/-- A transaction service that cannot reach its store: every call fails with `e`. -/
def failingTransactionService (e : GoError) : input.TransactionService Unit where
  CreateTransaction _ _ _ st := ((none, some e), st)
  GetTransaction _ st := ((none, some e), st)
  GetUserTransactions _ st := (([], some e), st)
  UpdateTransaction _ st := (.returned (some e), st)
  DeleteTransaction _ st := (some e, st)

/-- A direct user service that cannot reach its store: every call fails with `e`. -/
def failingDirectUserService (e : GoError) : input.DirectUserService Unit where
  CreateDirectUser _ st := ((none, some e), st)
  GetDirectUser _ st := ((none, some e), st)
  UpdateDirectUser _ st := (some e, st)
  DeleteDirectUser _ st := (some e, st)

/-! ## Shared lemmas -/

theorem Decimal.isZero_iff_toRat (d : Decimal) : d.IsZero = true ↔ d.toRat = 0 := by
  unfold Decimal.IsZero Decimal.toRat
  have h10 : (10 : ℚ) ^ d.exp ≠ 0 := zpow_ne_zero _ (by norm_num)
  simp [h10]

/-! ### Recording does not change behaviour

Over the recording repository a service returns what it returns over the plain
repository and leaves the same store. -/

theorem traced_CreateTransaction {σ : Type} (repo : TransactionRepository σ) (id : UUID)
    (userID : String) (amount : Decimal) (fundName : FundName) (st : σ)
    (log : List TransactionCall) :
    ((NewTransactionService repo.traced).CreateTransaction id userID amount fundName
        (st, log)).1 =
      ((NewTransactionService repo).CreateTransaction id userID amount fundName st).1 ∧
    ((NewTransactionService repo.traced).CreateTransaction id userID amount fundName
        (st, log)).2.1 =
      ((NewTransactionService repo).CreateTransaction id userID amount fundName st).2 := by
  simp only [TransactionService.CreateTransaction, NewTransactionService,
    TransactionRepository.traced]
  split_ifs <;> try exact ⟨rfl, rfl⟩
  rcases h : repo.Save (NewTransaction id userID amount fundName) st with ⟨_ | e, st1⟩ <;>
    simp [h]

theorem traced_GetTransaction {σ : Type} (repo : TransactionRepository σ) (id : String)
    (st : σ) (log : List TransactionCall) :
    ((NewTransactionService repo.traced).GetTransaction id (st, log)).1 =
      ((NewTransactionService repo).GetTransaction id st).1 ∧
    ((NewTransactionService repo.traced).GetTransaction id (st, log)).2.1 =
      ((NewTransactionService repo).GetTransaction id st).2 := by
  simp only [TransactionService.GetTransaction, NewTransactionService,
    TransactionRepository.traced]
  split_ifs <;> try exact ⟨rfl, rfl⟩
  rcases h : repo.FindByID id st with ⟨⟨_ | t, _ | e⟩, st1⟩ <;> simp [h]

theorem traced_UpdateTransaction {σ : Type} (repo : TransactionRepository σ)
    (transaction : Option Transaction) (st : σ) (log : List TransactionCall) :
    ((NewTransactionService repo.traced).UpdateTransaction transaction (st, log)).1 =
      ((NewTransactionService repo).UpdateTransaction transaction st).1 ∧
    ((NewTransactionService repo.traced).UpdateTransaction transaction (st, log)).2.1 =
      ((NewTransactionService repo).UpdateTransaction transaction st).2 := by
  cases transaction with
  | none => exact ⟨rfl, rfl⟩
  | some t =>
    simp only [TransactionService.UpdateTransaction, NewTransactionService,
      TransactionRepository.traced]
    split_ifs <;> try exact ⟨rfl, rfl⟩
    rcases h : repo.FindByID t.ID st with ⟨⟨_ | r, _ | e⟩, st1⟩ <;> simp [h]

theorem traced_DeleteTransaction {σ : Type} (repo : TransactionRepository σ) (id : String)
    (st : σ) (log : List TransactionCall) :
    ((NewTransactionService repo.traced).DeleteTransaction id (st, log)).1 =
      ((NewTransactionService repo).DeleteTransaction id st).1 ∧
    ((NewTransactionService repo.traced).DeleteTransaction id (st, log)).2.1 =
      ((NewTransactionService repo).DeleteTransaction id st).2 := by
  simp only [TransactionService.DeleteTransaction, NewTransactionService,
    TransactionRepository.traced]
  split_ifs <;> try exact ⟨rfl, rfl⟩
  rcases h : repo.FindByID id st with ⟨⟨_ | r, _ | e⟩, st1⟩ <;> simp [h]

theorem traced_CreateDirectUser {σ : Type} (repo : DirectUserRepository σ) (id : UUID)
    (name : String) (st : σ) (log : List DirectUserCall) :
    ((NewDirectUserService repo.traced).CreateDirectUser id name (st, log)).1 =
      ((NewDirectUserService repo).CreateDirectUser id name st).1 ∧
    ((NewDirectUserService repo.traced).CreateDirectUser id name (st, log)).2.1 =
      ((NewDirectUserService repo).CreateDirectUser id name st).2 := by
  simp only [DirectUserService.CreateDirectUser, NewDirectUserService,
    DirectUserRepository.traced]
  split_ifs <;> try exact ⟨rfl, rfl⟩
  rcases h : repo.Save (NewDirectUser id name) st with ⟨_ | e, st1⟩ <;> simp [h]

theorem traced_GetDirectUser {σ : Type} (repo : DirectUserRepository σ) (id : String)
    (st : σ) (log : List DirectUserCall) :
    ((NewDirectUserService repo.traced).GetDirectUser id (st, log)).1 =
      ((NewDirectUserService repo).GetDirectUser id st).1 ∧
    ((NewDirectUserService repo.traced).GetDirectUser id (st, log)).2.1 =
      ((NewDirectUserService repo).GetDirectUser id st).2 := by
  simp only [DirectUserService.GetDirectUser, NewDirectUserService,
    DirectUserRepository.traced]
  split_ifs <;> try exact ⟨rfl, rfl⟩
  rcases h : repo.FindByID id st with ⟨⟨_ | r, _ | e⟩, st1⟩ <;> simp [h]

theorem traced_DeleteDirectUser {σ : Type} (repo : DirectUserRepository σ) (id : String)
    (st : σ) (log : List DirectUserCall) :
    ((NewDirectUserService repo.traced).DeleteDirectUser id (st, log)).1 =
      ((NewDirectUserService repo).DeleteDirectUser id st).1 ∧
    ((NewDirectUserService repo.traced).DeleteDirectUser id (st, log)).2.1 =
      ((NewDirectUserService repo).DeleteDirectUser id st).2 := by
  simp only [DirectUserService.DeleteDirectUser, NewDirectUserService,
    DirectUserRepository.traced]
  split_ifs <;> try exact ⟨rfl, rfl⟩
  rcases h : repo.FindByID id st with ⟨⟨_ | r, _ | e⟩, st1⟩ <;> simp [h]

/-! ## TransactionService.UpdateTransaction -/

/-- C1. UpdateTransaction merges rather than overwrites. For a payload `t` with a
non-empty ID and a valid FundName, over any repository whose `FindByID t.ID` returns a
stored record `r` and no error, the service makes exactly two repository calls,
`FindByID t.ID` and then `Update` of the record with `ID = r.ID`, `UserID = r.UserID`
(whatever `t.UserID` is), `Amount = t.Amount` and `FundName = t.FundName`, and it
returns exactly what that `Update` returns, leaving the store as `Update` left it. -/
theorem UpdateTransaction_merges {σ : Type} (repo : TransactionRepository σ)
    (t r : Transaction) (st st1 : σ) (log : List TransactionCall)
    (hid : t.ID ≠ "") (hfund : t.FundName.IsValid = true)
    (hfind : repo.FindByID t.ID st = ((some r, none), st1)) :
    (NewTransactionService repo.traced).UpdateTransaction (some t) (st, log) =
      (Outcome.returned
          (repo.Update
            { ID := r.ID, UserID := r.UserID, Amount := t.Amount, FundName := t.FundName }
            st1).1,
        ((repo.Update
            { ID := r.ID, UserID := r.UserID, Amount := t.Amount, FundName := t.FundName }
            st1).2,
          log ++ [TransactionCall.FindByID t.ID,
            TransactionCall.Update
              { ID := r.ID, UserID := r.UserID, Amount := t.Amount,
                FundName := t.FundName }])) := by
  simp [TransactionService.UpdateTransaction, NewTransactionService,
    TransactionRepository.traced, hid, hfund, hfind]

/-- Witness of C1 on the row store: the payload carries another UserID ("intruder"),
the record handed to `Update` keeps the stored one. -/
theorem UpdateTransaction_merges_witness :
    (NewTransactionService transactionRows.traced).UpdateTransaction
        (some { ID := "tx-1", UserID := "intruder", Amount := ⟨300000000, -4⟩,
                FundName := CushonEquitiesFund })
        ([sampleTransaction], []) =
      (Outcome.returned none,
        ([{ ID := "tx-1", UserID := "user123", Amount := ⟨300000000, -4⟩,
            FundName := CushonEquitiesFund }],
         [TransactionCall.FindByID "tx-1",
          TransactionCall.Update
            { ID := "tx-1", UserID := "user123", Amount := ⟨300000000, -4⟩,
              FundName := CushonEquitiesFund }])) :=
  UpdateTransaction_merges transactionRows
    { ID := "tx-1", UserID := "intruder", Amount := ⟨300000000, -4⟩,
      FundName := CushonEquitiesFund }
    sampleTransaction [sampleTransaction] [sampleTransaction] []
    (by decide) (by decide) (by decide)

/-- C2 (the code departs from the claim). When `FindByID` reports the absence of the
record as a nil result with a nil error, UpdateTransaction does not return a not-found
error: after the single call `FindByID t.ID` it dereferences the nil record and panics. -/
theorem UpdateTransaction_nil_record_panics {σ : Type} (repo : TransactionRepository σ)
    (t : Transaction) (st st1 : σ) (log : List TransactionCall)
    (hid : t.ID ≠ "") (hfund : t.FundName.IsValid = true)
    (hfind : repo.FindByID t.ID st = ((none, none), st1)) :
    (NewTransactionService repo.traced).UpdateTransaction (some t) (st, log) =
      (Outcome.panicked, (st1, log ++ [TransactionCall.FindByID t.ID])) := by
  simp [TransactionService.UpdateTransaction, NewTransactionService,
    TransactionRepository.traced, hid, hfund, hfind]

/-- Witness of C2: an update of the id "missing-id" on an empty row store panics. -/
theorem UpdateTransaction_nil_record_panics_witness :
    (NewTransactionService transactionRows.traced).UpdateTransaction
        (some { ID := "missing-id", UserID := "user123", Amount := ⟨200075, -2⟩,
                FundName := CushonEquitiesFund })
        ([], []) =
      (Outcome.panicked, ([], [TransactionCall.FindByID "missing-id"])) :=
  UpdateTransaction_nil_record_panics transactionRows
    { ID := "missing-id", UserID := "user123", Amount := ⟨200075, -2⟩,
      FundName := CushonEquitiesFund }
    [] [] [] (by decide) (by decide) (by decide)

/-- When `FindByID` returns an error, UpdateTransaction returns that very error after
the single call `FindByID t.ID`; `Update` is not called. -/
theorem UpdateTransaction_lookup_error {σ : Type} (repo : TransactionRepository σ)
    (t : Transaction) (r : Option Transaction) (e : GoError) (st st1 : σ)
    (log : List TransactionCall)
    (hid : t.ID ≠ "") (hfund : t.FundName.IsValid = true)
    (hfind : repo.FindByID t.ID st = ((r, some e), st1)) :
    (NewTransactionService repo.traced).UpdateTransaction (some t) (st, log) =
      (Outcome.returned (some e), (st1, log ++ [TransactionCall.FindByID t.ID])) := by
  simp [TransactionService.UpdateTransaction, NewTransactionService,
    TransactionRepository.traced, hid, hfund, hfind]

/-- C8. UpdateTransaction rejects invalid input before touching the store: for a nil
input, an empty ID or a FundName outside the known set it returns a validation error,
the log of repository calls gains no entry (neither `FindByID` nor `Update` is called)
and the store is unchanged. -/
theorem UpdateTransaction_rejects_invalid_input {σ : Type} (repo : TransactionRepository σ)
    (transaction : Option Transaction) (st : σ) (log : List TransactionCall)
    (h : transaction = none ∨
      ∃ t, transaction = some t ∧ (t.ID = "" ∨ t.FundName.IsValid = false)) :
    ∃ e : GoError,
      (NewTransactionService repo.traced).UpdateTransaction transaction (st, log) =
        (Outcome.returned (some e), (st, log)) ∧ e.IsValidation = true := by
  rcases h with h | ⟨t, h, hbad⟩
  · subst h
    exact ⟨errors.New "transaction cannot be nil", rfl, by decide⟩
  · subst h
    by_cases hid : t.ID = ""
    · exact ⟨errors.New "transaction ID is required",
        by simp [TransactionService.UpdateTransaction, hid], by decide⟩
    · have hfund : t.FundName.IsValid = false := by
        rcases hbad with h1 | h1
        · exact absurd h1 hid
        · exact h1
      exact ⟨errors.New "invalid fund name",
        by simp [TransactionService.UpdateTransaction, hid, hfund], by decide⟩

/-- Witness of C8: a payload naming the fund "Invalid Fund" for a stored transaction. -/
theorem UpdateTransaction_rejects_invalid_input_witness :
    ∃ e : GoError,
      (NewTransactionService transactionRows.traced).UpdateTransaction
          (some { ID := "tx-1", UserID := "user123", Amount := ⟨200075, -2⟩,
                  FundName := ⟨"Invalid Fund"⟩ })
          ([sampleTransaction], []) =
        (Outcome.returned (some e), ([sampleTransaction], [])) ∧ e.IsValidation = true :=
  UpdateTransaction_rejects_invalid_input transactionRows
    (some { ID := "tx-1", UserID := "user123", Amount := ⟨200075, -2⟩,
            FundName := ⟨"Invalid Fund"⟩ })
    [sampleTransaction] []
    (Or.inr ⟨_, rfl, Or.inr (by decide)⟩)

/-! ## TransactionService.DeleteTransaction -/

/-- C4 (the code departs from the claim). When `FindByID` reports the absence of the
record as a nil result with a nil error, DeleteTransaction does not return a not-found
error: it goes on to call `Delete id` and returns whatever `Delete` returns, leaving
the store as `Delete` left it. -/
theorem DeleteTransaction_nil_record_calls_Delete {σ : Type}
    (repo : TransactionRepository σ) (id : String) (st st1 : σ)
    (log : List TransactionCall) (hid : id ≠ "")
    (hfind : repo.FindByID id st = ((none, none), st1)) :
    (NewTransactionService repo.traced).DeleteTransaction id (st, log) =
      ((repo.Delete id st1).1,
        ((repo.Delete id st1).2,
          log ++ [TransactionCall.FindByID id, TransactionCall.Delete id])) := by
  simp [TransactionService.DeleteTransaction, NewTransactionService,
    TransactionRepository.traced, hid, hfind]

/-- Witness of C4: deleting "missing-id" from a row store that does not hold it
reports success (a nil error) after a call of `Delete`. -/
theorem DeleteTransaction_nil_record_calls_Delete_witness :
    (NewTransactionService transactionRows.traced).DeleteTransaction "missing-id"
        ([sampleTransaction], []) =
      (none,
        ([sampleTransaction],
          [TransactionCall.FindByID "missing-id", TransactionCall.Delete "missing-id"])) :=
  DeleteTransaction_nil_record_calls_Delete transactionRows "missing-id"
    [sampleTransaction] [sampleTransaction] [] (by decide) (by decide)

/-- When `FindByID` returns an error, DeleteTransaction returns that very error after
the single call `FindByID id`; `Delete` is not called. -/
theorem DeleteTransaction_lookup_error {σ : Type} (repo : TransactionRepository σ)
    (id : String) (r : Option Transaction) (e : GoError) (st st1 : σ)
    (log : List TransactionCall) (hid : id ≠ "")
    (hfind : repo.FindByID id st = ((r, some e), st1)) :
    (NewTransactionService repo.traced).DeleteTransaction id (st, log) =
      (some e, (st1, log ++ [TransactionCall.FindByID id])) := by
  simp [TransactionService.DeleteTransaction, NewTransactionService,
    TransactionRepository.traced, hid, hfind]

/-! ## TransactionService.GetTransaction -/

/-- C6. GetTransaction collapses a failed lookup into not-found. For an empty id it
returns the validation error "transaction ID is required" and the repository is not
called. For a non-empty id it calls `FindByID id` once; it returns the error
"transaction not found" whenever `FindByID` returns an error, whatever its message,
or a nil record; and when `FindByID` returns a record and a nil error it returns
exactly that record with a nil error. -/
theorem GetTransaction_contract {σ : Type} (repo : TransactionRepository σ) (id : String)
    (st : σ) (log : List TransactionCall) :
    (id = "" →
      (NewTransactionService repo.traced).GetTransaction id (st, log) =
        ((none, some (errors.New "transaction ID is required")), (st, log))) ∧
    (id ≠ "" → ∀ (r : Option Transaction) (e : GoError),
      (repo.FindByID id st).1 = (r, some e) →
      (NewTransactionService repo.traced).GetTransaction id (st, log) =
        ((none, some (errors.New "transaction not found")),
          ((repo.FindByID id st).2, log ++ [TransactionCall.FindByID id]))) ∧
    (id ≠ "" → (repo.FindByID id st).1 = (none, none) →
      (NewTransactionService repo.traced).GetTransaction id (st, log) =
        ((none, some (errors.New "transaction not found")),
          ((repo.FindByID id st).2, log ++ [TransactionCall.FindByID id]))) ∧
    (id ≠ "" → ∀ t : Transaction, (repo.FindByID id st).1 = (some t, none) →
      (NewTransactionService repo.traced).GetTransaction id (st, log) =
        ((some t, none),
          ((repo.FindByID id st).2, log ++ [TransactionCall.FindByID id]))) ∧
    (errors.New "transaction ID is required").IsValidation = true ∧
    (errors.New "transaction not found").IsNotFound = true := by
  refine ⟨?_, ?_, ?_, ?_, by decide, by decide⟩
  · intro hid
    simp [TransactionService.GetTransaction, hid]
  · intro hid r e hfind
    simp [TransactionService.GetTransaction, NewTransactionService,
      TransactionRepository.traced, hid, hfind]
  · intro hid hfind
    simp [TransactionService.GetTransaction, NewTransactionService,
      TransactionRepository.traced, hid, hfind]
  · intro hid t hfind
    simp [TransactionService.GetTransaction, NewTransactionService,
      TransactionRepository.traced, hid, hfind]

/-- Witness of C6: the empty id; a store error with the message "connection refused";
a missing id on the row store; and a stored id on the row store. -/
theorem GetTransaction_contract_witness :
    (NewTransactionService transactionRows.traced).GetTransaction ""
        ([sampleTransaction], []) =
      ((none, some (errors.New "transaction ID is required")), ([sampleTransaction], [])) ∧
    (NewTransactionService (failingTransactions (errors.New "connection refused")).traced
        ).GetTransaction "tx-1" ((), []) =
      ((none, some (errors.New "transaction not found")),
        ((), [TransactionCall.FindByID "tx-1"])) ∧
    (NewTransactionService transactionRows.traced).GetTransaction "missing-id"
        ([sampleTransaction], []) =
      ((none, some (errors.New "transaction not found")),
        ([sampleTransaction], [TransactionCall.FindByID "missing-id"])) ∧
    (NewTransactionService transactionRows.traced).GetTransaction "tx-1"
        ([sampleTransaction], []) =
      ((some sampleTransaction, none),
        ([sampleTransaction], [TransactionCall.FindByID "tx-1"])) :=
  ⟨(GetTransaction_contract transactionRows "" [sampleTransaction] []).1 rfl,
   (GetTransaction_contract (failingTransactions (errors.New "connection refused"))
      "tx-1" () []).2.1 (by decide) none (errors.New "connection refused") rfl,
   (GetTransaction_contract transactionRows "missing-id" [sampleTransaction] []).2.2.1
      (by decide) (by decide),
   (GetTransaction_contract transactionRows "tx-1" [sampleTransaction] []).2.2.2.1
      (by decide) sampleTransaction (by decide)⟩

/-! ## TransactionService.CreateTransaction -/

/-- C9. CreateTransaction persists exactly what it was given. For a non-empty userID,
a non-zero amount and a known fundName, when `Save` succeeds the service has made
exactly one repository call, `Save` of the record whose UserID, Amount and FundName
are the inputs (the amount is the same decimal, coefficient and exponent untouched)
and whose ID is the generated identifier, which is not empty; that same record is
returned with a nil error and the store is as `Save` left it. -/
theorem CreateTransaction_persists_inputs {σ : Type} (repo : TransactionRepository σ)
    (id : UUID) (userID : String) (amount : Decimal) (fundName : FundName) (st : σ)
    (log : List TransactionCall)
    (huser : userID ≠ "") (hamount : amount.toRat ≠ 0) (hfund : fundName.IsValid = true)
    (hsave : (repo.Save
      { ID := id.String, UserID := userID, Amount := amount, FundName := fundName }
      st).1 = none) :
    (NewTransactionService repo.traced).CreateTransaction id userID amount fundName
        (st, log) =
      ((some { ID := id.String, UserID := userID, Amount := amount, FundName := fundName },
        none),
       ((repo.Save
          { ID := id.String, UserID := userID, Amount := amount, FundName := fundName }
          st).2,
        log ++ [TransactionCall.Save
          { ID := id.String, UserID := userID, Amount := amount,
            FundName := fundName }])) ∧
    id.String ≠ "" := by
  have hz : amount.IsZero = false := by
    cases h : amount.IsZero
    · rfl
    · exact absurd ((Decimal.isZero_iff_toRat amount).1 h) hamount
  refine ⟨?_, id.text_ne⟩
  simp [TransactionService.CreateTransaction, NewTransactionService,
    TransactionRepository.traced, NewTransaction, huser, hz, hfund, hsave]

/-- Witness of C9: user "user123" puts 1000.50 into the Cushon Equities Fund. -/
theorem CreateTransaction_persists_inputs_witness :
    (NewTransactionService transactionRows.traced).CreateTransaction sampleUUID "user123"
        ⟨100050, -2⟩ CushonEquitiesFund ([], []) =
      ((some { ID := "6ba7b810-9dad-41d1-80b4-00c04fd430c8", UserID := "user123",
               Amount := ⟨100050, -2⟩, FundName := CushonEquitiesFund },
        none),
       ([{ ID := "6ba7b810-9dad-41d1-80b4-00c04fd430c8", UserID := "user123",
           Amount := ⟨100050, -2⟩, FundName := CushonEquitiesFund }],
        [TransactionCall.Save
          { ID := "6ba7b810-9dad-41d1-80b4-00c04fd430c8", UserID := "user123",
            Amount := ⟨100050, -2⟩, FundName := CushonEquitiesFund }])) ∧
    sampleUUID.String ≠ "" :=
  CreateTransaction_persists_inputs transactionRows sampleUUID "user123" ⟨100050, -2⟩
    CushonEquitiesFund [] [] (by decide)
    (by rw [Ne, ← Decimal.isZero_iff_toRat]; decide) (by decide) rfl

/-- C7. CreateTransaction rejects invalid input before touching the store. For every
(userID, amount, fundName) the call returns a validation error with the store and the
log of repository calls unchanged if and only if userID is empty, or the amount
denotes exactly zero (in any representation: coefficient 0 with any exponent), or
fundName is not in the known set. In particular a negative non-zero amount passes the
checks: the record is handed to `Save`. -/
theorem CreateTransaction_rejects_iff {σ : Type} (repo : TransactionRepository σ)
    (id : UUID) (userID : String) (amount : Decimal) (fundName : FundName) (st : σ)
    (log : List TransactionCall) :
    (((∃ e : GoError,
        ((NewTransactionService repo.traced).CreateTransaction id userID amount fundName
          (st, log)).1 = (none, some e) ∧ e.IsValidation = true) ∧
      ((NewTransactionService repo.traced).CreateTransaction id userID amount fundName
          (st, log)).2 = (st, log)) ↔
      (userID = "" ∨ amount.toRat = 0 ∨ fundName.IsValid = false)) ∧
    (userID ≠ "" → amount.toRat < 0 → fundName.IsValid = true →
      ((NewTransactionService repo.traced).CreateTransaction id userID amount fundName
          (st, log)).2.2 =
        log ++ [TransactionCall.Save (NewTransaction id userID amount fundName)]) := by
  have hlog : userID ≠ "" → amount.IsZero = false → fundName.IsValid = true →
      ((NewTransactionService repo.traced).CreateTransaction id userID amount fundName
          (st, log)).2.2 =
        log ++ [TransactionCall.Save (NewTransaction id userID amount fundName)] := by
    intro hu hz hf
    simp only [TransactionService.CreateTransaction, NewTransactionService,
      TransactionRepository.traced, hu, hz, hf]
    cases hs : (repo.Save (NewTransaction id userID amount fundName) st).1 <;> simp [hs]
  constructor
  · constructor
    · rintro ⟨-, hst⟩
      by_contra hgood
      push_neg at hgood
      obtain ⟨hu, ha, hf⟩ := hgood
      have hz : amount.IsZero = false := by
        cases h : amount.IsZero
        · rfl
        · exact absurd ((Decimal.isZero_iff_toRat amount).1 h) ha
      have hf1 : fundName.IsValid = true := by
        cases h : fundName.IsValid
        · exact absurd h hf
        · rfl
      have h1 := hlog hu hz hf1
      rw [hst] at h1
      have h2 := congrArg List.length h1
      simp at h2
    · intro hbad
      by_cases hu : userID = ""
      · exact ⟨⟨errors.New "user ID is required",
          by simp [TransactionService.CreateTransaction, hu], by decide⟩,
          by simp [TransactionService.CreateTransaction, hu]⟩
      · by_cases hz : amount.IsZero = true
        · exact ⟨⟨errors.New "amount cannot be zero",
            by simp [TransactionService.CreateTransaction, hu, hz], by decide⟩,
            by simp [TransactionService.CreateTransaction, hu, hz]⟩
        · have hz1 : amount.IsZero = false := by simpa using hz
          have hf : fundName.IsValid = false := by
            rcases hbad with h | h | h
            · exact absurd h hu
            · exact absurd ((Decimal.isZero_iff_toRat amount).2 h) hz
            · exact h
          exact ⟨⟨errors.New "invalid fund name",
            by simp [TransactionService.CreateTransaction, hu, hz1, hf], by decide⟩,
            by simp [TransactionService.CreateTransaction, hu, hz1, hf]⟩
  · intro hu hneg hf
    have hz : amount.IsZero = false := by
      cases h : amount.IsZero
      · rfl
      · exact absurd ((Decimal.isZero_iff_toRat amount).1 h) (ne_of_lt hneg)
    exact hlog hu hz hf

/-- Witness of C7: the amount 0.00 is rejected with nothing saved, the amount -50.25
is handed to `Save`. -/
theorem CreateTransaction_rejects_iff_witness :
    ((∃ e : GoError,
        ((NewTransactionService transactionRows.traced).CreateTransaction sampleUUID
          "user123" ⟨0, -2⟩ CushonEquitiesFund ([], [])).1 = (none, some e) ∧
        e.IsValidation = true) ∧
      ((NewTransactionService transactionRows.traced).CreateTransaction sampleUUID
          "user123" ⟨0, -2⟩ CushonEquitiesFund ([], [])).2 = ([], [])) ∧
    ((NewTransactionService transactionRows.traced).CreateTransaction sampleUUID
          "user123" ⟨-5025, -2⟩ CushonEquitiesFund ([], [])).2.2 =
        [TransactionCall.Save
          (NewTransaction sampleUUID "user123" ⟨-5025, -2⟩ CushonEquitiesFund)] :=
  ⟨(CreateTransaction_rejects_iff transactionRows sampleUUID "user123" ⟨0, -2⟩
      CushonEquitiesFund [] []).1.2
      (Or.inr (Or.inl ((Decimal.isZero_iff_toRat ⟨0, -2⟩).1 (by decide)))),
   (CreateTransaction_rejects_iff transactionRows sampleUUID "user123" ⟨-5025, -2⟩
      CushonEquitiesFund [] []).2 (by decide)
      (by unfold Decimal.toRat; norm_num) (by decide)⟩

/-! ## DirectUserService -/

/-- C10. CreateDirectUser with an empty name fails with the validation error
"name is required" and persists nothing: over any repository the log of repository
calls gains no entry (`Save` is never called) and the store is unchanged. -/
theorem CreateDirectUser_empty_name {σ : Type} (repo : DirectUserRepository σ) (id : UUID)
    (st : σ) (log : List DirectUserCall) :
    (NewDirectUserService repo.traced).CreateDirectUser id "" (st, log) =
      ((none, some (errors.New "name is required")), (st, log)) ∧
    (errors.New "name is required").IsValidation = true := by
  refine ⟨?_, by decide⟩
  simp [DirectUserService.CreateDirectUser]

/-- C3 (the code departs from the claim). When `FindByID` reports the absence of the
user as a nil result with a nil error, GetDirectUser does not return a not-found
error: it returns that nil user with a nil error, a success without a user. -/
theorem GetDirectUser_nil_user_is_success {σ : Type} (repo : DirectUserRepository σ)
    (id : String) (st st1 : σ) (log : List DirectUserCall) (hid : id ≠ "")
    (hfind : repo.FindByID id st = ((none, none), st1)) :
    (NewDirectUserService repo.traced).GetDirectUser id (st, log) =
      ((none, none), (st1, log ++ [DirectUserCall.FindByID id])) := by
  simp [DirectUserService.GetDirectUser, NewDirectUserService,
    DirectUserRepository.traced, hid, hfind]

/-- Witness of C3: the id "non-existent" on a row store holding only John Doe. -/
theorem GetDirectUser_nil_user_is_success_witness :
    (NewDirectUserService directUserRows.traced).GetDirectUser "non-existent"
        ([{ ID := "u-1", Name := "John Doe" }], []) =
      ((none, none),
        ([{ ID := "u-1", Name := "John Doe" }], [DirectUserCall.FindByID "non-existent"])) :=
  GetDirectUser_nil_user_is_success directUserRows "non-existent"
    [{ ID := "u-1", Name := "John Doe" }] [{ ID := "u-1", Name := "John Doe" }] []
    (by decide) (by decide)

/-- When `FindByID` returns an error, GetDirectUser returns a nil user and that very
error. -/
theorem GetDirectUser_lookup_error {σ : Type} (repo : DirectUserRepository σ)
    (id : String) (r : Option DirectUser) (e : GoError) (st st1 : σ)
    (log : List DirectUserCall) (hid : id ≠ "")
    (hfind : repo.FindByID id st = ((r, some e), st1)) :
    (NewDirectUserService repo.traced).GetDirectUser id (st, log) =
      ((none, some e), (st1, log ++ [DirectUserCall.FindByID id])) := by
  simp [DirectUserService.GetDirectUser, NewDirectUserService,
    DirectUserRepository.traced, hid, hfind]

/-- C5 (the code departs from the claim). When `FindByID` reports the absence of the
user as a nil result with a nil error, DeleteDirectUser does not return a not-found
error: it goes on to call `Delete id` and returns whatever `Delete` returns. -/
theorem DeleteDirectUser_nil_user_calls_Delete {σ : Type} (repo : DirectUserRepository σ)
    (id : String) (st st1 : σ) (log : List DirectUserCall) (hid : id ≠ "")
    (hfind : repo.FindByID id st = ((none, none), st1)) :
    (NewDirectUserService repo.traced).DeleteDirectUser id (st, log) =
      ((repo.Delete id st1).1,
        ((repo.Delete id st1).2,
          log ++ [DirectUserCall.FindByID id, DirectUserCall.Delete id])) := by
  simp [DirectUserService.DeleteDirectUser, NewDirectUserService,
    DirectUserRepository.traced, hid, hfind]

/-- Witness of C5: deleting "non-existent" from a row store holding only John Doe
reports success (a nil error) after a call of `Delete`. -/
theorem DeleteDirectUser_nil_user_calls_Delete_witness :
    (NewDirectUserService directUserRows.traced).DeleteDirectUser "non-existent"
        ([{ ID := "u-1", Name := "John Doe" }], []) =
      (none,
        ([{ ID := "u-1", Name := "John Doe" }],
          [DirectUserCall.FindByID "non-existent", DirectUserCall.Delete "non-existent"])) :=
  DeleteDirectUser_nil_user_calls_Delete directUserRows "non-existent"
    [{ ID := "u-1", Name := "John Doe" }] [{ ID := "u-1", Name := "John Doe" }] []
    (by decide) (by decide)

/-- The parts of C5 the code does keep: an empty id is rejected with the validation
error "direct user ID is required" and no repository call, and an error of `FindByID`
is returned as it is without a call of `Delete`. -/
theorem DeleteDirectUser_guards {σ : Type} (repo : DirectUserRepository σ)
    (st : σ) (log : List DirectUserCall) :
    (NewDirectUserService repo.traced).DeleteDirectUser "" (st, log) =
      (some (errors.New "direct user ID is required"), (st, log)) ∧
    (errors.New "direct user ID is required").IsValidation = true ∧
    ∀ (id : String) (r : Option DirectUser) (e : GoError) (st1 : σ), id ≠ "" →
      repo.FindByID id st = ((r, some e), st1) →
      (NewDirectUserService repo.traced).DeleteDirectUser id (st, log) =
        (some e, (st1, log ++ [DirectUserCall.FindByID id])) := by
  refine ⟨by simp [DirectUserService.DeleteDirectUser], by decide, ?_⟩
  intro id r e st1 hid hfind
  simp [DirectUserService.DeleteDirectUser, NewDirectUserService,
    DirectUserRepository.traced, hid, hfind]

/-! ## FundName -/

/-- C16. FundName validity is exact membership in the known set: for every string `s`,
`FundName(s).IsValid()` is true if and only if `s` is "Cushon Equities Fund" character
for character; the empty string, the same words in lower case and the same words with
surrounding blanks are invalid. -/
theorem FundName_IsValid_iff (s : String) :
    ((FundName.mk s).IsValid = true ↔ s = "Cushon Equities Fund") ∧
    (FundName.mk "").IsValid = false ∧
    (FundName.mk "cushon equities fund").IsValid = false ∧
    (FundName.mk " Cushon Equities Fund ").IsValid = false := by
  refine ⟨?_, by decide, by decide, by decide⟩
  unfold FundName.IsValid CushonEquitiesFund
  constructor
  · intro h
    by_cases hs : FundName.mk s = ⟨"Cushon Equities Fund"⟩
    · exact congrArg FundName.val hs
    · simp [hs] at h
  · intro h
    simp [h]

/-! ## The in-memory direct user repository -/

theorem alist_lookup_insert_eq {β : Type} (k a : String) (b : β)
    (s : AList (fun _ : String => β)) :
    (s.insert a b).lookup k = if k = a then some b else s.lookup k := by
  by_cases h : k = a
  · subst h
    simp [AList.lookup_insert]
  · simp [h, AList.lookup_insert_ne h]

theorem alist_lookup_erase_eq {β : Type} (k a : String)
    (s : AList (fun _ : String => β)) :
    (s.erase a).lookup k = if k = a then none else s.lookup k := by
  by_cases h : k = a
  · subst h
    simp [AList.lookup_erase]
  · simp [h, AList.lookup_erase_ne h]

/-- Every store the in-memory direct user repository can hold keeps each user under
its own ID, which is not empty, and with a name that is not empty. -/
theorem MockDirectUserRepository.Reachable.stored {m : MockDirectUserRepository}
    (h : m.Reachable) (key : String) (user : DirectUser)
    (hstored : m.users.lookup key = some user) :
    key ≠ "" ∧ user.ID = key ∧ user.Name ≠ "" := by
  induction h generalizing key user with
  | new => simp [NewMockDirectUserRepository, AList.lookup_empty] at hstored
  | Save u _ ih =>
    unfold MockDirectUserRepository.Save at hstored
    split_ifs at hstored with h1 h2
    · exact ih key user hstored
    · exact ih key user hstored
    · simp only [alist_lookup_insert_eq] at hstored
      split_ifs at hstored with h3
      · cases hstored
        exact ⟨h3 ▸ h1, h3.symm, h2⟩
      · exact ih key user hstored
  | Update u _ ih =>
    unfold MockDirectUserRepository.Update at hstored
    split_ifs at hstored with h1 h2
    · exact ih key user hstored
    · exact ih key user hstored
    · split at hstored
      · exact ih key user hstored
      · simp only [alist_lookup_insert_eq] at hstored
        split_ifs at hstored with h3
        · cases hstored
          exact ⟨h3 ▸ h1, h3.symm, h2⟩
        · exact ih key user hstored
  | Delete id _ ih =>
    unfold MockDirectUserRepository.Delete at hstored
    split_ifs at hstored with h1
    · exact ih key user hstored
    · split at hstored
      · exact ih key user hstored
      · simp only [alist_lookup_erase_eq] at hstored
        split_ifs at hstored with h3
        exact ih key user hstored

/-! ## DirectUserService over the in-memory repository -/

/-- C11. Create-then-get round trip for direct users. Over the in-memory repository,
from any store, for every non-empty name CreateDirectUser returns with a nil error a
user `u` with `u.Name = name` and `u.ID` the generated identifier, which is not empty,
and a following GetDirectUser of `u.ID` returns with a nil error a record equal to `u`. -/
theorem CreateDirectUser_then_GetDirectUser (id : UUID) (name : String)
    (m : MockDirectUserRepository) (hname : name ≠ "") :
    ∃ (u : DirectUser) (m1 : MockDirectUserRepository),
      (NewDirectUserService MockDirectUserRepository.asRepository).CreateDirectUser
          id name m = ((some u, none), m1) ∧
      u.Name = name ∧ u.ID = id.String ∧ u.ID ≠ "" ∧
      (NewDirectUserService MockDirectUserRepository.asRepository).GetDirectUser
          u.ID m1 = ((some u, none), m1) := by
  have hid : id.String ≠ "" := id.text_ne
  refine ⟨NewDirectUser id name, ⟨m.users.insert id.String (NewDirectUser id name)⟩,
    ?_, rfl, rfl, hid, ?_⟩
  · simp [DirectUserService.CreateDirectUser, NewDirectUserService,
      MockDirectUserRepository.asRepository, MockDirectUserRepository.Save,
      NewDirectUser, hname, hid]
  · simp [DirectUserService.GetDirectUser, NewDirectUserService,
      MockDirectUserRepository.asRepository, MockDirectUserRepository.FindByID,
      NewDirectUser, hid, AList.lookup_insert]

/-- Witness of C11: "John Doe" is created in the empty store and read back. -/
theorem CreateDirectUser_then_GetDirectUser_witness :
    ∃ (u : DirectUser) (m1 : MockDirectUserRepository),
      (NewDirectUserService MockDirectUserRepository.asRepository).CreateDirectUser
          sampleUUID "John Doe" NewMockDirectUserRepository = ((some u, none), m1) ∧
      u.Name = "John Doe" ∧ u.ID = sampleUUID.String ∧ u.ID ≠ "" ∧
      (NewDirectUserService MockDirectUserRepository.asRepository).GetDirectUser
          u.ID m1 = ((some u, none), m1) :=
  CreateDirectUser_then_GetDirectUser sampleUUID "John Doe" NewMockDirectUserRepository
    (by decide)

/-- C12. UpdateDirectUser rejects invalid input before touching the store: for a nil
input, an empty ID or an empty Name it returns a validation error, the log of
repository calls gains no entry (`Update` is never called) and the store is unchanged. -/
theorem UpdateDirectUser_rejects_invalid_input {σ : Type} (repo : DirectUserRepository σ)
    (user : Option DirectUser) (st : σ) (log : List DirectUserCall)
    (h : user = none ∨ ∃ u, user = some u ∧ (u.ID = "" ∨ u.Name = "")) :
    ∃ e : GoError,
      (NewDirectUserService repo.traced).UpdateDirectUser user (st, log) =
        (some e, (st, log)) ∧ e.IsValidation = true := by
  rcases h with h | ⟨u, h, hbad⟩
  · subst h
    exact ⟨errors.New "direct user cannot be nil", rfl, by decide⟩
  · subst h
    by_cases hid : u.ID = ""
    · exact ⟨errors.New "direct user ID is required",
        by simp [DirectUserService.UpdateDirectUser, hid], by decide⟩
    · have hname : u.Name = "" := by
        rcases hbad with h1 | h1
        · exact absurd h1 hid
        · exact h1
      exact ⟨errors.New "name is required",
        by simp [DirectUserService.UpdateDirectUser, hid, hname], by decide⟩

/-- Witness of C12: an update of the stored user "u-1" to the empty name. -/
theorem UpdateDirectUser_rejects_invalid_input_witness :
    ∃ e : GoError,
      (NewDirectUserService directUserRows.traced).UpdateDirectUser
          (some { ID := "u-1", Name := "" }) ([sampleUser], []) =
        (some e, ([sampleUser], [])) ∧ e.IsValidation = true :=
  UpdateDirectUser_rejects_invalid_input directUserRows
    (some { ID := "u-1", Name := "" }) [sampleUser] []
    (Or.inr ⟨_, rfl, Or.inr rfl⟩)

/-- C13. UpdateDirectUser on a non-existent ID fails and changes nothing. Over the
in-memory repository, for every user value with a non-empty ID and a non-empty Name
whose ID is not a key of the store, it returns the not-found error
"direct user not found" and the store afterwards is the store before. -/
theorem UpdateDirectUser_missing_id (user : DirectUser) (m : MockDirectUserRepository)
    (hid : user.ID ≠ "") (hname : user.Name ≠ "")
    (habsent : m.users.lookup user.ID = none) :
    (NewDirectUserService MockDirectUserRepository.asRepository).UpdateDirectUser
        (some user) m = (some (errors.New "direct user not found"), m) ∧
    (errors.New "direct user not found").IsNotFound = true := by
  refine ⟨?_, by decide⟩
  simp [DirectUserService.UpdateDirectUser, NewDirectUserService,
    MockDirectUserRepository.asRepository, MockDirectUserRepository.Update,
    hid, hname, habsent]

/-- Witness of C13: the id "non-existent" in a store that holds only John Doe. -/
theorem UpdateDirectUser_missing_id_witness :
    (NewDirectUserService MockDirectUserRepository.asRepository).UpdateDirectUser
        (some { ID := "non-existent", Name := "Jane Doe" })
        (MockDirectUserRepository.Save sampleUser NewMockDirectUserRepository).2 =
      (some (errors.New "direct user not found"),
        (MockDirectUserRepository.Save sampleUser NewMockDirectUserRepository).2) ∧
    (errors.New "direct user not found").IsNotFound = true :=
  UpdateDirectUser_missing_id { ID := "non-existent", Name := "Jane Doe" }
    (MockDirectUserRepository.Save sampleUser NewMockDirectUserRepository).2
    (by decide) (by decide) (by decide)

/-- C14. A successful UpdateDirectUser changes only the name of the targeted record.
Over the in-memory repository, for every user stored under the ID `i` and every
non-empty name `n`, UpdateDirectUser of `{ID: i, Name: n}` returns a nil error, a
following GetDirectUser of `i` returns the record with ID `i` and Name `n`, and what is
stored under every other ID is the same as before. -/
theorem UpdateDirectUser_changes_only_name (m : MockDirectUserRepository)
    (i n : String) (u : DirectUser) (hm : m.Reachable)
    (hstored : m.users.lookup i = some u) (hn : n ≠ "") :
    ∃ m1 : MockDirectUserRepository,
      (NewDirectUserService MockDirectUserRepository.asRepository).UpdateDirectUser
          (some { ID := i, Name := n }) m = (none, m1) ∧
      (NewDirectUserService MockDirectUserRepository.asRepository).GetDirectUser i m1 =
          ((some { ID := i, Name := n }, none), m1) ∧
      ∀ j : String, j ≠ i → m1.users.lookup j = m.users.lookup j := by
  have hi : i ≠ "" := (hm.stored i u hstored).1
  refine ⟨⟨m.users.insert i { ID := i, Name := n }⟩, ?_, ?_, ?_⟩
  · simp [DirectUserService.UpdateDirectUser, NewDirectUserService,
      MockDirectUserRepository.asRepository, MockDirectUserRepository.Update,
      hi, hn, hstored]
  · simp [DirectUserService.GetDirectUser, NewDirectUserService,
      MockDirectUserRepository.asRepository, MockDirectUserRepository.FindByID,
      hi, AList.lookup_insert]
  · intro j hj
    exact AList.lookup_insert_ne hj

/-- Witness of C14: John Doe, stored under "u-1", becomes Jane Doe. -/
theorem UpdateDirectUser_changes_only_name_witness :
    ∃ m1 : MockDirectUserRepository,
      (NewDirectUserService MockDirectUserRepository.asRepository).UpdateDirectUser
          (some { ID := "u-1", Name := "Jane Doe" })
          (MockDirectUserRepository.Save sampleUser NewMockDirectUserRepository).2 =
        (none, m1) ∧
      (NewDirectUserService MockDirectUserRepository.asRepository).GetDirectUser "u-1" m1 =
          ((some { ID := "u-1", Name := "Jane Doe" }, none), m1) ∧
      ∀ j : String, j ≠ "u-1" → m1.users.lookup j =
        (MockDirectUserRepository.Save sampleUser NewMockDirectUserRepository).2.users.lookup
          j :=
  UpdateDirectUser_changes_only_name
    (MockDirectUserRepository.Save sampleUser NewMockDirectUserRepository).2
    "u-1" "Jane Doe" sampleUser
    (MockDirectUserRepository.Reachable.Save sampleUser MockDirectUserRepository.Reachable.new)
    (by decide) (by decide)

/-! ## TransactionService.GetUserTransactions -/

/-- C15, as the code has it. GetUserTransactions is validation plus pass-through of the
error: for an empty userID it returns the validation error "user ID is required" and the
repository is not called; for a non-empty userID it calls `FindByUserID userID` once and
returns exactly the error of that call, with exactly the list of that call when the
error is nil and with a nil list when it is not. So a nil error with an empty list, the
answer for a user with zero transactions, is returned as a success with an empty list. -/
theorem GetUserTransactions_pass_through {σ : Type} (repo : TransactionRepository σ)
    (userID : String) (st : σ) (log : List TransactionCall) :
    (userID = "" →
      (NewTransactionService repo.traced).GetUserTransactions userID (st, log) =
        (([], some (errors.New "user ID is required")), (st, log))) ∧
    (userID ≠ "" →
      ((NewTransactionService repo.traced).GetUserTransactions userID (st, log)).2 =
        ((repo.FindByUserID userID st).2, log ++ [TransactionCall.FindByUserID userID]) ∧
      ((NewTransactionService repo.traced).GetUserTransactions userID (st, log)).1.2 =
        (repo.FindByUserID userID st).1.2 ∧
      ((repo.FindByUserID userID st).1.2 = none →
        ((NewTransactionService repo.traced).GetUserTransactions userID (st, log)).1.1 =
          (repo.FindByUserID userID st).1.1) ∧
      ((repo.FindByUserID userID st).1.2 ≠ none →
        ((NewTransactionService repo.traced).GetUserTransactions userID (st, log)).1.1 =
          [])) ∧
    (errors.New "user ID is required").IsValidation = true := by
  refine ⟨?_, ?_, by decide⟩
  · intro hu
    simp [TransactionService.GetUserTransactions, hu]
  · intro hu
    rcases h : repo.FindByUserID userID st with ⟨⟨l, _ | e⟩, st1⟩ <;>
      simp [TransactionService.GetUserTransactions, NewTransactionService,
        TransactionRepository.traced, hu, h]

/-- Witness of C15 as amended: the empty userID, and a user without transactions on the
in-memory repository. -/
theorem GetUserTransactions_pass_through_witness :
    (NewTransactionService MockTransactionRepository.asRepository.traced
        ).GetUserTransactions "" (NewMockTransactionRepository, []) =
      (([], some (errors.New "user ID is required")), (NewMockTransactionRepository, [])) ∧
    ((NewTransactionService MockTransactionRepository.asRepository.traced
        ).GetUserTransactions "no-transactions" (NewMockTransactionRepository, [])).1 =
      ([], none) :=
  ⟨(GetUserTransactions_pass_through MockTransactionRepository.asRepository ""
      NewMockTransactionRepository []).1 rfl,
   Prod.ext
    (((GetUserTransactions_pass_through MockTransactionRepository.asRepository
      "no-transactions" NewMockTransactionRepository []).2.1 (by decide)).2.2.1 rfl)
    (((GetUserTransactions_pass_through MockTransactionRepository.asRepository
      "no-transactions" NewMockTransactionRepository []).2.1 (by decide)).2.1)⟩

/-- C15 as stated fails: when `FindByUserID` returns a list together with an error,
GetUserTransactions returns the error with a nil list, not the list of the repository. -/
theorem GetUserTransactions_drops_list_on_error :
    ((partialReadTransactions (errors.New "connection lost")).FindByUserID "user123"
        [sampleTransaction]).1 =
      ([sampleTransaction], some (errors.New "connection lost")) ∧
    ((NewTransactionService (partialReadTransactions (errors.New "connection lost"))
        ).GetUserTransactions "user123" [sampleTransaction]).1 =
      ([], some (errors.New "connection lost")) ∧
    ((NewTransactionService (partialReadTransactions (errors.New "connection lost"))
        ).GetUserTransactions "user123" [sampleTransaction]).1 ≠
      ((partialReadTransactions (errors.New "connection lost")).FindByUserID "user123"
        [sampleTransaction]).1 := by
  refine ⟨by decide, by decide, by decide⟩

/-! ## TransactionService over the in-memory repository -/

/-- C17. Create-update-get round trip for transactions. Over the in-memory repository,
from any store, for every non-empty userID `u`, non-zero amount `a`, known fund `f`,
amount `a1` and payload UserID `u1`: CreateTransaction returns a record `tx` with a nil
error, UpdateTransaction of `{ID: tx.ID, UserID: u1, Amount: a1, FundName: f}` returns a
nil error, and a following GetTransaction of `tx.ID` returns the record with
`ID = tx.ID`, `UserID = u` (not `u1`), `Amount = a1` and `FundName = f`. -/
theorem create_update_get_round_trip (id : UUID) (u u1 : String) (a a1 : Decimal)
    (f : FundName) (m : MockTransactionRepository)
    (hu : u ≠ "") (ha : a.toRat ≠ 0) (hf : f.IsValid = true) :
    ∃ (tx : Transaction) (m1 m2 : MockTransactionRepository),
      (NewTransactionService MockTransactionRepository.asRepository).CreateTransaction
          id u a f m = ((some tx, none), m1) ∧
      tx.ID = id.String ∧
      (NewTransactionService MockTransactionRepository.asRepository).UpdateTransaction
          (some { ID := tx.ID, UserID := u1, Amount := a1, FundName := f }) m1 =
        (Outcome.returned none, m2) ∧
      (NewTransactionService MockTransactionRepository.asRepository).GetTransaction
          tx.ID m2 =
        ((some { ID := tx.ID, UserID := u, Amount := a1, FundName := f }, none), m2) := by
  have hid : id.String ≠ "" := id.text_ne
  have hz : a.IsZero = false := by
    cases h : a.IsZero
    · rfl
    · exact absurd ((Decimal.isZero_iff_toRat a).1 h) ha
  refine ⟨NewTransaction id u a f,
    ⟨m.transactions.insert id.String (NewTransaction id u a f)⟩,
    ⟨(m.transactions.insert id.String (NewTransaction id u a f)).insert id.String
      { ID := id.String, UserID := u, Amount := a1, FundName := f }⟩, ?_, rfl, ?_, ?_⟩
  · simp [TransactionService.CreateTransaction, NewTransactionService,
      MockTransactionRepository.asRepository, MockTransactionRepository.Save,
      NewTransaction, hu, hz, hf]
  · simp [TransactionService.UpdateTransaction, NewTransactionService,
      MockTransactionRepository.asRepository, MockTransactionRepository.FindByID,
      MockTransactionRepository.Update, NewTransaction, hid, hf, AList.lookup_insert]
  · simp [TransactionService.GetTransaction, NewTransactionService,
      MockTransactionRepository.asRepository, MockTransactionRepository.FindByID,
      NewTransaction, hid, AList.lookup_insert]

/-- Witness of C17: 25000.0000 is created for "user123", then updated to 30000.0000 by
a payload that names the user "intruder". -/
theorem create_update_get_round_trip_witness :
    ∃ (tx : Transaction) (m1 m2 : MockTransactionRepository),
      (NewTransactionService MockTransactionRepository.asRepository).CreateTransaction
          sampleUUID "user123" ⟨250000000, -4⟩ CushonEquitiesFund
          NewMockTransactionRepository = ((some tx, none), m1) ∧
      tx.ID = sampleUUID.String ∧
      (NewTransactionService MockTransactionRepository.asRepository).UpdateTransaction
          (some { ID := tx.ID, UserID := "intruder", Amount := ⟨300000000, -4⟩,
                  FundName := CushonEquitiesFund }) m1 =
        (Outcome.returned none, m2) ∧
      (NewTransactionService MockTransactionRepository.asRepository).GetTransaction
          tx.ID m2 =
        ((some { ID := tx.ID, UserID := "user123", Amount := ⟨300000000, -4⟩,
                 FundName := CushonEquitiesFund }, none), m2) :=
  create_update_get_round_trip sampleUUID "user123" "intruder" ⟨250000000, -4⟩
    ⟨300000000, -4⟩ CushonEquitiesFund NewMockTransactionRepository (by decide)
    (by rw [Ne, ← Decimal.isZero_iff_toRat]; decide) (by decide)

/-! ## Repository failures -/

/-- C18. Repository failures are never swallowed and are propagated unchanged. For
every operation of the two services other than the lookup of GetTransaction, when a
repository call made by the operation returns an error `e`, the operation returns
exactly `e` (with a nil record or list where it has one) and the log of repository
calls ends with the call that failed. The calls are: `Save` in CreateTransaction,
`FindByUserID` in GetUserTransactions, `FindByID` and `Update` in UpdateTransaction,
`FindByID` and `Delete` in DeleteTransaction, `Save` in CreateDirectUser, `FindByID` in
GetDirectUser, `Update` in UpdateDirectUser, `FindByID` and `Delete` in
DeleteDirectUser. -/
theorem repository_errors_propagate {σ τ : Type} (repoT : TransactionRepository σ)
    (repoU : DirectUserRepository τ) (st : σ) (su : τ) (logT : List TransactionCall)
    (logU : List DirectUserCall) (e : GoError) :
    (∀ (id : UUID) (userID : String) (amount : Decimal) (fundName : FundName),
      userID ≠ "" → amount.IsZero = false → fundName.IsValid = true →
      (repoT.Save (NewTransaction id userID amount fundName) st).1 = some e →
      (NewTransactionService repoT.traced).CreateTransaction id userID amount fundName
          (st, logT) =
        ((none, some e),
          ((repoT.Save (NewTransaction id userID amount fundName) st).2,
            logT ++ [TransactionCall.Save (NewTransaction id userID amount fundName)]))) ∧
    (∀ userID : String, userID ≠ "" → (repoT.FindByUserID userID st).1.2 = some e →
      (NewTransactionService repoT.traced).GetUserTransactions userID (st, logT) =
        (([], some e),
          ((repoT.FindByUserID userID st).2,
            logT ++ [TransactionCall.FindByUserID userID]))) ∧
    (∀ t : Transaction, t.ID ≠ "" → t.FundName.IsValid = true →
      (repoT.FindByID t.ID st).1.2 = some e →
      (NewTransactionService repoT.traced).UpdateTransaction (some t) (st, logT) =
        (Outcome.returned (some e),
          ((repoT.FindByID t.ID st).2, logT ++ [TransactionCall.FindByID t.ID]))) ∧
    (∀ t r : Transaction, t.ID ≠ "" → t.FundName.IsValid = true →
      (repoT.FindByID t.ID st).1 = (some r, none) →
      (repoT.Update { r with Amount := t.Amount, FundName := t.FundName }
        (repoT.FindByID t.ID st).2).1 = some e →
      (NewTransactionService repoT.traced).UpdateTransaction (some t) (st, logT) =
        (Outcome.returned (some e),
          ((repoT.Update { r with Amount := t.Amount, FundName := t.FundName }
              (repoT.FindByID t.ID st).2).2,
            logT ++ [TransactionCall.FindByID t.ID,
              TransactionCall.Update
                { r with Amount := t.Amount, FundName := t.FundName }]))) ∧
    (∀ id : String, id ≠ "" → (repoT.FindByID id st).1.2 = some e →
      (NewTransactionService repoT.traced).DeleteTransaction id (st, logT) =
        (some e, ((repoT.FindByID id st).2, logT ++ [TransactionCall.FindByID id]))) ∧
    (∀ id : String, id ≠ "" → (repoT.FindByID id st).1.2 = none →
      (repoT.Delete id (repoT.FindByID id st).2).1 = some e →
      (NewTransactionService repoT.traced).DeleteTransaction id (st, logT) =
        (some e,
          ((repoT.Delete id (repoT.FindByID id st).2).2,
            logT ++ [TransactionCall.FindByID id, TransactionCall.Delete id]))) ∧
    (∀ (id : UUID) (name : String), name ≠ "" →
      (repoU.Save (NewDirectUser id name) su).1 = some e →
      (NewDirectUserService repoU.traced).CreateDirectUser id name (su, logU) =
        ((none, some e),
          ((repoU.Save (NewDirectUser id name) su).2,
            logU ++ [DirectUserCall.Save (NewDirectUser id name)]))) ∧
    (∀ id : String, id ≠ "" → (repoU.FindByID id su).1.2 = some e →
      (NewDirectUserService repoU.traced).GetDirectUser id (su, logU) =
        ((none, some e), ((repoU.FindByID id su).2, logU ++ [DirectUserCall.FindByID id]))) ∧
    (∀ user : DirectUser, user.ID ≠ "" → user.Name ≠ "" →
      (repoU.Update user su).1 = some e →
      (NewDirectUserService repoU.traced).UpdateDirectUser (some user) (su, logU) =
        (some e, ((repoU.Update user su).2, logU ++ [DirectUserCall.Update user]))) ∧
    (∀ id : String, id ≠ "" → (repoU.FindByID id su).1.2 = some e →
      (NewDirectUserService repoU.traced).DeleteDirectUser id (su, logU) =
        (some e, ((repoU.FindByID id su).2, logU ++ [DirectUserCall.FindByID id]))) ∧
    (∀ id : String, id ≠ "" → (repoU.FindByID id su).1.2 = none →
      (repoU.Delete id (repoU.FindByID id su).2).1 = some e →
      (NewDirectUserService repoU.traced).DeleteDirectUser id (su, logU) =
        (some e,
          ((repoU.Delete id (repoU.FindByID id su).2).2,
            logU ++ [DirectUserCall.FindByID id, DirectUserCall.Delete id]))) := by
  refine ⟨?_, ?_, ?_, ?_, ?_, ?_, ?_, ?_, ?_, ?_, ?_⟩
  · intro id userID amount fundName hu hz hf hsave
    simp [TransactionService.CreateTransaction, NewTransactionService,
      TransactionRepository.traced, hu, hz, hf, hsave]
  · intro userID hu hfind
    rcases h : repoT.FindByUserID userID st with ⟨⟨l, err⟩, st1⟩
    rw [h] at hfind
    simp only at hfind
    subst hfind
    simp [TransactionService.GetUserTransactions, NewTransactionService,
      TransactionRepository.traced, hu, h]
  · intro t hid hf hfind
    rcases h : repoT.FindByID t.ID st with ⟨⟨r, err⟩, st1⟩
    rw [h] at hfind
    simp only at hfind
    subst hfind
    simp [TransactionService.UpdateTransaction, NewTransactionService,
      TransactionRepository.traced, hid, hf, h]
  · intro t r hid hf hfind hupdate
    rcases h : repoT.FindByID t.ID st with ⟨⟨r1, err⟩, st1⟩
    rw [h] at hfind hupdate
    simp only [Prod.mk.injEq] at hfind
    obtain ⟨h1, h2⟩ := hfind
    subst h1 h2
    simp only at hupdate
    simp [TransactionService.UpdateTransaction, NewTransactionService,
      TransactionRepository.traced, hid, hf, h, hupdate]
  · intro id hid hfind
    rcases h : repoT.FindByID id st with ⟨⟨r, err⟩, st1⟩
    rw [h] at hfind
    simp only at hfind
    subst hfind
    simp [TransactionService.DeleteTransaction, NewTransactionService,
      TransactionRepository.traced, hid, h]
  · intro id hid hfind hdelete
    rcases h : repoT.FindByID id st with ⟨⟨r, err⟩, st1⟩
    rw [h] at hfind hdelete
    simp only at hfind hdelete
    subst hfind
    simp [TransactionService.DeleteTransaction, NewTransactionService,
      TransactionRepository.traced, hid, h, ← hdelete]
  · intro id name hname hsave
    simp [DirectUserService.CreateDirectUser, NewDirectUserService,
      DirectUserRepository.traced, hname, hsave]
  · intro id hid hfind
    rcases h : repoU.FindByID id su with ⟨⟨r, err⟩, su1⟩
    rw [h] at hfind
    simp only at hfind
    subst hfind
    simp [DirectUserService.GetDirectUser, NewDirectUserService,
      DirectUserRepository.traced, hid, h]
  · intro user hid hname hupdate
    simp [DirectUserService.UpdateDirectUser, NewDirectUserService,
      DirectUserRepository.traced, hid, hname, hupdate]
  · intro id hid hfind
    rcases h : repoU.FindByID id su with ⟨⟨r, err⟩, su1⟩
    rw [h] at hfind
    simp only at hfind
    subst hfind
    simp [DirectUserService.DeleteDirectUser, NewDirectUserService,
      DirectUserRepository.traced, hid, h]
  · intro id hid hfind hdelete
    rcases h : repoU.FindByID id su with ⟨⟨r, err⟩, su1⟩
    rw [h] at hfind hdelete
    simp only at hfind hdelete
    subst hfind
    simp [DirectUserService.DeleteDirectUser, NewDirectUserService,
      DirectUserRepository.traced, hid, h, ← hdelete]

/-- Witness of C18: a `Save` that fails, an `Update` that fails after a lookup that
found the record, a lookup that fails, and a `Delete` that fails after a lookup that
found the user, each with the error "connection refused". -/
theorem repository_errors_propagate_witness :
    (NewTransactionService (failingTransactions (errors.New "connection refused")).traced
        ).CreateTransaction sampleUUID "user123" ⟨100050, -2⟩ CushonEquitiesFund ((), []) =
      ((none, some (errors.New "connection refused")),
        ((), [TransactionCall.Save
          (NewTransaction sampleUUID "user123" ⟨100050, -2⟩ CushonEquitiesFund)])) ∧
    (NewTransactionService (readOnlyTransactions (errors.New "connection refused")).traced
        ).UpdateTransaction
          (some { ID := "tx-1", UserID := "user123", Amount := ⟨200075, -2⟩,
                  FundName := CushonEquitiesFund })
          ([sampleTransaction], []) =
      (Outcome.returned (some (errors.New "connection refused")),
        ([sampleTransaction],
          [TransactionCall.FindByID "tx-1",
           TransactionCall.Update
            { ID := "tx-1", UserID := "user123", Amount := ⟨200075, -2⟩,
              FundName := CushonEquitiesFund }])) ∧
    (NewDirectUserService (failingDirectUsers (errors.New "connection refused")).traced
        ).GetDirectUser "u-1" ((), []) =
      ((none, some (errors.New "connection refused")),
        ((), [DirectUserCall.FindByID "u-1"])) ∧
    (NewDirectUserService (readOnlyDirectUsers (errors.New "connection refused")).traced
        ).DeleteDirectUser "u-1" ([sampleUser], []) =
      (some (errors.New "connection refused"),
        ([sampleUser], [DirectUserCall.FindByID "u-1", DirectUserCall.Delete "u-1"])) :=
  ⟨(repository_errors_propagate (failingTransactions (errors.New "connection refused"))
      (failingDirectUsers (errors.New "connection refused")) () () [] []
      (errors.New "connection refused")).1
      sampleUUID "user123" ⟨100050, -2⟩ CushonEquitiesFund
      (by decide) (by decide) (by decide) rfl,
   (repository_errors_propagate (readOnlyTransactions (errors.New "connection refused"))
      (readOnlyDirectUsers (errors.New "connection refused"))
      [sampleTransaction] [sampleUser] [] []
      (errors.New "connection refused")).2.2.2.1
      { ID := "tx-1", UserID := "user123", Amount := ⟨200075, -2⟩,
        FundName := CushonEquitiesFund }
      sampleTransaction (by decide) (by decide) (by decide) rfl,
   (repository_errors_propagate (failingTransactions (errors.New "connection refused"))
      (failingDirectUsers (errors.New "connection refused")) () () [] []
      (errors.New "connection refused")).2.2.2.2.2.2.2.1
      "u-1" (by decide) rfl,
   (repository_errors_propagate (readOnlyTransactions (errors.New "connection refused"))
      (readOnlyDirectUsers (errors.New "connection refused"))
      [sampleTransaction] [sampleUser] [] []
      (errors.New "connection refused")).2.2.2.2.2.2.2.2.2.2
      "u-1" (by decide) (by decide) rfl⟩

/-! ## Invariants of the in-memory stores -/

/-- A property of in-memory transaction stores that `Save` and `Update` of a record with
a known fund keep, and `Delete` keeps, is kept by every call of the service. -/
theorem TransactionService.serve_keeps_ledger (P : MockTransactionRepository → Prop)
    (hSave : ∀ (t : Transaction) (m : MockTransactionRepository),
      t.FundName.IsValid = true → P m → P (MockTransactionRepository.Save t m).2)
    (hUpdate : ∀ (t : Transaction) (m : MockTransactionRepository),
      t.FundName.IsValid = true → P m → P (MockTransactionRepository.Update t m).2)
    (hDelete : ∀ (id : String) (m : MockTransactionRepository),
      P m → P (MockTransactionRepository.Delete id m).2)
    (request : TransactionRequest) (m : MockTransactionRepository) (h : P m) :
    P ((NewTransactionService MockTransactionRepository.asRepository).serve request m) := by
  cases request with
  | CreateTransaction id userID amount fundName =>
    simp only [TransactionService.serve, TransactionService.CreateTransaction,
      NewTransactionService, MockTransactionRepository.asRepository]
    split_ifs with h1 h2 h3
    · exact h
    · exact h
    · exact h
    · have hf : fundName.IsValid = true := by simpa using h3
      have := hSave (NewTransaction id userID amount fundName) m hf h
      rcases hs : MockTransactionRepository.Save (NewTransaction id userID amount fundName) m
        with ⟨_ | e, m1⟩ <;> rw [hs] at this <;> simpa using this
  | GetTransaction id =>
    simp only [TransactionService.serve, TransactionService.GetTransaction,
      NewTransactionService, MockTransactionRepository.asRepository,
      MockTransactionRepository.FindByID]
    split_ifs with h1
    · exact h
    · cases m.transactions.lookup id <;> exact h
  | GetUserTransactions userID =>
    simp only [TransactionService.serve, TransactionService.GetUserTransactions,
      NewTransactionService, MockTransactionRepository.asRepository,
      MockTransactionRepository.FindByUserID]
    split_ifs with h1
    · exact h
    · exact h
  | UpdateTransaction transaction =>
    cases transaction with
    | none => exact h
    | some t =>
      simp only [TransactionService.serve, TransactionService.UpdateTransaction,
        NewTransactionService, MockTransactionRepository.asRepository,
        MockTransactionRepository.FindByID]
      split_ifs with h1 h2
      · exact h
      · exact h
      · have hf : t.FundName.IsValid = true := by simpa using h2
        cases hl : m.transactions.lookup t.ID with
        | none => exact h
        | some r =>
          exact hUpdate { r with Amount := t.Amount, FundName := t.FundName } m hf h
  | DeleteTransaction id =>
    simp only [TransactionService.serve, TransactionService.DeleteTransaction,
      NewTransactionService, MockTransactionRepository.asRepository,
      MockTransactionRepository.FindByID]
    split_ifs with h1
    · exact h
    · cases hl : m.transactions.lookup id with
      | none => exact h
      | some r => exact hDelete id m h

/-- A property of in-memory stores that every single call keeps is kept by every finite
sequence of calls. -/
theorem TransactionService.serveAll_keeps_ledger {σ : Type} (s : TransactionService σ)
    (P : σ → Prop) (hstep : ∀ (request : TransactionRequest) (st : σ),
      P st → P (s.serve request st))
    (requests : List TransactionRequest) (st : σ) (h : P st) :
    P (s.serveAll requests st) := by
  induction requests generalizing st with
  | nil => exact h
  | cons request rest ih =>
    simp only [TransactionService.serveAll, List.foldl_cons]
    exact ih (s.serve request st) (hstep request st h)

theorem MockTransactionRepository.KnownFunds.insert {m : MockTransactionRepository}
    (h : m.KnownFunds) (t : Transaction) (hf : t.FundName.IsValid = true) :
    MockTransactionRepository.KnownFunds ⟨m.transactions.insert t.ID t⟩ := by
  intro key r hr
  simp only [alist_lookup_insert_eq] at hr
  split_ifs at hr with h1
  · cases hr
    exact hf
  · exact h key r hr

/-- C19. Known-fund invariant of the ledger. Over the in-memory repository, from a
store in which every transaction names a fund of the known set, after any finite
sequence of TransactionService calls (CreateTransaction, GetTransaction,
GetUserTransactions, UpdateTransaction, DeleteTransaction, with any arguments, whether
they succeed or fail) every stored transaction still names a fund of the known set. -/
theorem known_funds_invariant (m : MockTransactionRepository)
    (requests : List TransactionRequest) (h : m.KnownFunds) :
    ((NewTransactionService MockTransactionRepository.asRepository).serveAll
      requests m).KnownFunds := by
  refine TransactionService.serveAll_keeps_ledger _ MockTransactionRepository.KnownFunds ?_
    requests m h
  intro request st hst
  refine TransactionService.serve_keeps_ledger MockTransactionRepository.KnownFunds ?_ ?_ ?_
    request st hst
  · intro t m1 hf h1
    exact h1.insert t hf
  · intro t m1 hf h1
    unfold MockTransactionRepository.Update
    cases m1.transactions.lookup t.ID with
    | none => exact h1
    | some r => exact h1.insert t hf
  · intro id m1 h1
    unfold MockTransactionRepository.Delete
    cases m1.transactions.lookup id with
    | none => exact h1
    | some r =>
      intro key r1 hr
      simp only [alist_lookup_erase_eq] at hr
      split_ifs at hr with h2
      exact h1 key r1 hr

/-- Witness of C19: from the empty store, a transaction is created, an update to the
fund "Invalid Fund" is tried, the transaction is read, updated and a missing one is
deleted. -/
theorem known_funds_invariant_witness :
    ((NewTransactionService MockTransactionRepository.asRepository).serveAll
      [TransactionRequest.CreateTransaction sampleUUID "user123" ⟨250000000, -4⟩
          CushonEquitiesFund,
       TransactionRequest.UpdateTransaction
          (some { ID := sampleUUID.String, UserID := "user123", Amount := ⟨1, 0⟩,
                  FundName := ⟨"Invalid Fund"⟩ }),
       TransactionRequest.GetTransaction sampleUUID.String,
       TransactionRequest.GetUserTransactions "user123",
       TransactionRequest.UpdateTransaction
          (some { ID := sampleUUID.String, UserID := "intruder",
                  Amount := ⟨300000000, -4⟩, FundName := CushonEquitiesFund }),
       TransactionRequest.DeleteTransaction "missing-id"]
      NewMockTransactionRepository).KnownFunds :=
  known_funds_invariant NewMockTransactionRepository _
    (fun key t h => by simp [NewMockTransactionRepository, AList.lookup_empty] at h)

/-- A property of in-memory direct user stores that the methods `Save`, `Update` and
`Delete` of the repository keep is kept by every call of the service. -/
theorem DirectUserService.serve_keeps_directory (P : MockDirectUserRepository → Prop)
    (hSave : ∀ (u : DirectUser) (m : MockDirectUserRepository),
      P m → P (MockDirectUserRepository.Save u m).2)
    (hUpdate : ∀ (u : DirectUser) (m : MockDirectUserRepository),
      P m → P (MockDirectUserRepository.Update u m).2)
    (hDelete : ∀ (id : String) (m : MockDirectUserRepository),
      P m → P (MockDirectUserRepository.Delete id m).2)
    (request : DirectUserRequest) (m : MockDirectUserRepository) (h : P m) :
    P ((NewDirectUserService MockDirectUserRepository.asRepository).serve request m) := by
  cases request with
  | CreateDirectUser id name =>
    simp only [DirectUserService.serve, DirectUserService.CreateDirectUser,
      NewDirectUserService, MockDirectUserRepository.asRepository]
    split_ifs with h1
    · exact h
    · have := hSave (NewDirectUser id name) m h
      rcases hs : MockDirectUserRepository.Save (NewDirectUser id name) m
        with ⟨_ | e, m1⟩ <;> rw [hs] at this <;> simpa using this
  | GetDirectUser id =>
    simp only [DirectUserService.serve, DirectUserService.GetDirectUser,
      NewDirectUserService, MockDirectUserRepository.asRepository,
      MockDirectUserRepository.FindByID]
    split_ifs with h1
    · exact h
    · cases m.users.lookup id <;> exact h
  | UpdateDirectUser user =>
    cases user with
    | none => exact h
    | some u =>
      simp only [DirectUserService.serve, DirectUserService.UpdateDirectUser,
        NewDirectUserService, MockDirectUserRepository.asRepository]
      split_ifs with h1 h2
      · exact h
      · exact h
      · exact hUpdate u m h
  | DeleteDirectUser id =>
    simp only [DirectUserService.serve, DirectUserService.DeleteDirectUser,
      NewDirectUserService, MockDirectUserRepository.asRepository,
      MockDirectUserRepository.FindByID]
    split_ifs with h1
    · exact h
    · cases hl : m.users.lookup id with
      | none => exact h
      | some r => exact hDelete id m h

/-- A property of stores that every single call keeps is kept by every finite sequence
of calls. -/
theorem DirectUserService.serveAll_keeps_directory {σ : Type} (s : DirectUserService σ)
    (P : σ → Prop) (hstep : ∀ (request : DirectUserRequest) (st : σ),
      P st → P (s.serve request st))
    (requests : List DirectUserRequest) (st : σ) (h : P st) :
    P (s.serveAll requests st) := by
  induction requests generalizing st with
  | nil => exact h
  | cons request rest ih =>
    simp only [DirectUserService.serveAll, List.foldl_cons]
    exact ih (s.serve request st) (hstep request st h)

theorem MockDirectUserRepository.users_insert_kept {m : MockDirectUserRepository}
    (h : m.NamedUsers ∧ m.OwnKeys) (u : DirectUser) (hid : u.ID ≠ "") (hname : u.Name ≠ "") :
    MockDirectUserRepository.NamedUsers ⟨m.users.insert u.ID u⟩ ∧
      MockDirectUserRepository.OwnKeys ⟨m.users.insert u.ID u⟩ := by
  constructor
  · intro key r hr
    simp only [alist_lookup_insert_eq] at hr
    split_ifs at hr with h1
    · cases hr
      exact ⟨hname, hid⟩
    · exact h.1 key r hr
  · intro key r hr
    simp only [alist_lookup_insert_eq] at hr
    split_ifs at hr with h1
    · cases hr
      exact h1.symm
    · exact h.2 key r hr

/-- From any in-memory store, reachable or not, in which every user has a non-empty
Name and a non-empty ID and is stored under its own ID, the same holds after any finite
sequence of DirectUserService calls. -/
theorem DirectUserService.serveAll_keeps_users (m : MockDirectUserRepository)
    (requests : List DirectUserRequest) (h : m.NamedUsers ∧ m.OwnKeys) :
    ((NewDirectUserService MockDirectUserRepository.asRepository).serveAll
        requests m).NamedUsers ∧
    ((NewDirectUserService MockDirectUserRepository.asRepository).serveAll
        requests m).OwnKeys := by
  refine DirectUserService.serveAll_keeps_directory _ (fun st => st.NamedUsers ∧ st.OwnKeys) ?_
    requests m h
  intro request st hst
  refine DirectUserService.serve_keeps_directory (fun st => st.NamedUsers ∧ st.OwnKeys) ?_ ?_ ?_
    request st hst
  · intro u m1 h1
    unfold MockDirectUserRepository.Save
    split_ifs with h2 h3
    · exact h1
    · exact h1
    · exact MockDirectUserRepository.users_insert_kept h1 u h2 h3
  · intro u m1 h1
    unfold MockDirectUserRepository.Update
    split_ifs with h2 h3
    · exact h1
    · exact h1
    · cases m1.users.lookup u.ID with
      | none => exact h1
      | some r => exact MockDirectUserRepository.users_insert_kept h1 u h2 h3
  · intro id m1 h1
    unfold MockDirectUserRepository.Delete
    split_ifs with h2
    · exact h1
    · cases m1.users.lookup id with
      | none => exact h1
      | some r =>
        constructor
        · intro key r1 hr
          simp only [alist_lookup_erase_eq] at hr
          split_ifs at hr with h3
          exact h1.1 key r1 hr
        · intro key r1 hr
          simp only [alist_lookup_erase_eq] at hr
          split_ifs at hr with h3
          exact h1.2 key r1 hr

/-- In every store the in-memory direct user repository can hold, every user has a
non-empty Name and a non-empty ID and is stored under its own ID. -/
theorem MockDirectUserRepository.Reachable.users {m : MockDirectUserRepository}
    (h : m.Reachable) : m.NamedUsers ∧ m.OwnKeys :=
  ⟨fun key user hstored =>
      ⟨(h.stored key user hstored).2.2,
        fun hempty => (h.stored key user hstored).1
          ((h.stored key user hstored).2.1.symm.trans hempty)⟩,
    fun key user hstored => (h.stored key user hstored).2.1⟩

/-- C20. Non-empty-name invariant of direct users. Over the in-memory repository, from
a store the repository can hold (built by `NewMockDirectUserRepository` and the methods
of the repository) in which every user has a non-empty Name and a non-empty ID, after
any finite sequence of DirectUserService calls (CreateDirectUser, GetDirectUser,
UpdateDirectUser, DeleteDirectUser, with any arguments, whether they succeed or fail)
every stored user still has a non-empty Name and a non-empty ID and is stored under its
own ID. -/
theorem named_users_invariant (m : MockDirectUserRepository)
    (requests : List DirectUserRequest) (hm : m.Reachable) (hstart : m.NamedUsers) :
    ((NewDirectUserService MockDirectUserRepository.asRepository).serveAll
        requests m).NamedUsers ∧
    ((NewDirectUserService MockDirectUserRepository.asRepository).serveAll
        requests m).OwnKeys :=
  DirectUserService.serveAll_keeps_users m requests ⟨hstart, hm.users.2⟩

/-- Witness of C20: from the store that holds John Doe, a user is created, an update to
the empty name is tried, John Doe is renamed, read and deleted. -/
theorem named_users_invariant_witness :
    ((NewDirectUserService MockDirectUserRepository.asRepository).serveAll
        [DirectUserRequest.CreateDirectUser otherUUID "Jane Roe",
         DirectUserRequest.UpdateDirectUser (some { ID := "u-1", Name := "" }),
         DirectUserRequest.UpdateDirectUser (some { ID := "u-1", Name := "Jane Doe" }),
         DirectUserRequest.GetDirectUser "u-1",
         DirectUserRequest.DeleteDirectUser "u-1",
         DirectUserRequest.UpdateDirectUser none]
        (MockDirectUserRepository.Save sampleUser NewMockDirectUserRepository).2
      ).NamedUsers ∧
    ((NewDirectUserService MockDirectUserRepository.asRepository).serveAll
        [DirectUserRequest.CreateDirectUser otherUUID "Jane Roe",
         DirectUserRequest.UpdateDirectUser (some { ID := "u-1", Name := "" }),
         DirectUserRequest.UpdateDirectUser (some { ID := "u-1", Name := "Jane Doe" }),
         DirectUserRequest.GetDirectUser "u-1",
         DirectUserRequest.DeleteDirectUser "u-1",
         DirectUserRequest.UpdateDirectUser none]
        (MockDirectUserRepository.Save sampleUser NewMockDirectUserRepository).2
      ).OwnKeys :=
  named_users_invariant
    (MockDirectUserRepository.Save sampleUser NewMockDirectUserRepository).2 _
    (MockDirectUserRepository.Reachable.Save sampleUser MockDirectUserRepository.Reachable.new)
    (MockDirectUserRepository.Reachable.Save sampleUser
      MockDirectUserRepository.Reachable.new).users.1

/-- A map that was not built by the repository, with a user stored under a key that is
not its ID, stays so under calls that do not write that key: the start of the invariant
has to include that users are stored under their own IDs. -/
theorem own_keys_needed_at_start :
    MockDirectUserRepository.NamedUsers
      ⟨(∅ : AList (fun _ : String => DirectUser)).insert "k" sampleUser⟩ ∧
    ¬ MockDirectUserRepository.OwnKeys
      ((NewDirectUserService MockDirectUserRepository.asRepository).serveAll
        [DirectUserRequest.GetDirectUser "k"]
        ⟨(∅ : AList (fun _ : String => DirectUser)).insert "k" sampleUser⟩) := by
  constructor
  · intro key user h
    simp only [alist_lookup_insert_eq, AList.lookup_empty] at h
    split_ifs at h with h1
    cases h
    exact ⟨by decide, by decide⟩
  · intro h
    have h1 := h "k" sampleUser (by decide)
    exact absurd h1 (by decide)

/-! ## The MySQL adapters -/

/-- C23. Both MySQL repositories report absence as a nil result with a nil error. For
every id and every database: when the connection works and no row has the id (the scan
returns `sql.ErrNoRows`), `DirectUserRepository.FindByID` and
`TransactionRepository.FindByID` return `(nil, nil)`; when the query fails with another
error they return `(nil, that error)`; and when a row has the id they return it with a
nil error, each field being the column of the row. No call changes the database. -/
theorem mysql_FindByID_contract (db : Database) (id : String) :
    (db.fault = none → db.direct_users.lookup id = none →
      db.queryRowDirectUser id = ScanResult.ErrNoRows ∧
      mysql.DirectUserRepository.FindByID id db = ((none, none), db)) ∧
    (db.fault = none → db.transactions.lookup id = none →
      db.queryRowTransaction id = ScanResult.ErrNoRows ∧
      mysql.TransactionRepository.FindByID id db = ((none, none), db)) ∧
    (∀ e : GoError, db.fault = some e →
      mysql.DirectUserRepository.FindByID id db = ((none, some e), db) ∧
      mysql.TransactionRepository.FindByID id db = ((none, some e), db)) ∧
    (∀ name : String, db.fault = none → db.direct_users.lookup id = some name →
      mysql.DirectUserRepository.FindByID id db =
        ((some { ID := id, Name := name }, none), db)) ∧
    (∀ columns : TransactionColumns, db.fault = none →
      db.transactions.lookup id = some columns →
      mysql.TransactionRepository.FindByID id db =
        ((some { ID := id, UserID := columns.user_id, Amount := columns.amount,
                 FundName := ⟨columns.fund_name⟩ }, none), db)) := by
  refine ⟨?_, ?_, ?_, ?_, ?_⟩
  · intro hf hl
    simp [mysql.DirectUserRepository.FindByID, Database.queryRowDirectUser, hf, hl]
  · intro hf hl
    simp [mysql.TransactionRepository.FindByID, Database.queryRowTransaction, hf, hl]
  · intro e hf
    simp [mysql.DirectUserRepository.FindByID, Database.queryRowDirectUser,
      mysql.TransactionRepository.FindByID, Database.queryRowTransaction, hf]
  · intro name hf hl
    simp [mysql.DirectUserRepository.FindByID, Database.queryRowDirectUser, hf, hl]
  · intro columns hf hl
    simp [mysql.TransactionRepository.FindByID, Database.queryRowTransaction, hf, hl]

/-- Witness of C23: the sample database, asked for missing and for stored ids, and the
same database behind a broken connection. -/
theorem mysql_FindByID_contract_witness :
    mysql.DirectUserRepository.FindByID "non-existent" sampleDatabase =
      ((none, none), sampleDatabase) ∧
    mysql.TransactionRepository.FindByID "non-existent" sampleDatabase =
      ((none, none), sampleDatabase) ∧
    mysql.DirectUserRepository.FindByID "u-1"
        { sampleDatabase with fault := some (errors.New "invalid connection") } =
      ((none, some (errors.New "invalid connection")),
        { sampleDatabase with fault := some (errors.New "invalid connection") }) ∧
    mysql.DirectUserRepository.FindByID "u-1" sampleDatabase =
      ((some { ID := "u-1", Name := "John Doe" }, none), sampleDatabase) ∧
    mysql.TransactionRepository.FindByID "tx-1" sampleDatabase =
      ((some { ID := "tx-1", UserID := "user123", Amount := ⟨250000000, -4⟩,
               FundName := CushonEquitiesFund }, none), sampleDatabase) :=
  ⟨((mysql_FindByID_contract sampleDatabase "non-existent").1 rfl (by decide)).2,
   ((mysql_FindByID_contract sampleDatabase "non-existent").2.1 rfl (by decide)).2,
   ((mysql_FindByID_contract
      { sampleDatabase with fault := some (errors.New "invalid connection") }
      "u-1").2.2.1 (errors.New "invalid connection") rfl).1,
   (mysql_FindByID_contract sampleDatabase "u-1").2.2.2.1 "John Doe" rfl (by decide),
   (mysql_FindByID_contract sampleDatabase "tx-1").2.2.2.2
      ⟨"user123", ⟨250000000, -4⟩, "Cushon Equities Fund"⟩ rfl (by decide)⟩

/-- C24. Both MySQL repositories treat deleting a missing row as success. For every id
and every database: when the `DELETE` statement executes without a driver error,
`DirectUserRepository.Delete` and `TransactionRepository.Delete` return a nil error,
also when no row has the id (zero rows affected, tables unchanged); and when the
statement fails with the driver error `e` they return `e` and change nothing. -/
theorem mysql_Delete_contract (db : Database) (id : String) :
    (db.fault = none →
      (mysql.DirectUserRepository.Delete id db).1 = none ∧
      (mysql.TransactionRepository.Delete id db).1 = none) ∧
    (db.fault = none → db.direct_users.lookup id = none →
      (db.execDeleteDirectUser id).1 = Except.ok ⟨0, none⟩ ∧
      mysql.DirectUserRepository.Delete id db = (none, db)) ∧
    (db.fault = none → db.transactions.lookup id = none →
      (db.execDeleteTransaction id).1 = Except.ok ⟨0, none⟩ ∧
      mysql.TransactionRepository.Delete id db = (none, db)) ∧
    (∀ e : GoError, db.fault = some e →
      mysql.DirectUserRepository.Delete id db = (some e, db) ∧
      mysql.TransactionRepository.Delete id db = (some e, db)) := by
  refine ⟨?_, ?_, ?_, ?_⟩
  · intro hf
    constructor
    · cases hl : db.direct_users.lookup id <;>
        simp [mysql.DirectUserRepository.Delete, Database.execDeleteDirectUser, hf, hl]
    · cases hl : db.transactions.lookup id <;>
        simp [mysql.TransactionRepository.Delete, Database.execDeleteTransaction, hf, hl]
  · intro hf hl
    simp [mysql.DirectUserRepository.Delete, Database.execDeleteDirectUser, hf, hl]
  · intro hf hl
    simp [mysql.TransactionRepository.Delete, Database.execDeleteTransaction, hf, hl]
  · intro e hf
    simp [mysql.DirectUserRepository.Delete, Database.execDeleteDirectUser,
      mysql.TransactionRepository.Delete, Database.execDeleteTransaction, hf]

/-- Witness of C24: the id "non-existent" is deleted from the sample database with
success, and behind a broken connection the driver error comes back. -/
theorem mysql_Delete_contract_witness :
    mysql.DirectUserRepository.Delete "non-existent" sampleDatabase =
      (none, sampleDatabase) ∧
    mysql.TransactionRepository.Delete "non-existent" sampleDatabase =
      (none, sampleDatabase) ∧
    mysql.TransactionRepository.Delete "tx-1"
        { sampleDatabase with fault := some (errors.New "invalid connection") } =
      (some (errors.New "invalid connection"),
        { sampleDatabase with fault := some (errors.New "invalid connection") }) :=
  ⟨((mysql_Delete_contract sampleDatabase "non-existent").2.1 rfl (by decide)).2,
   ((mysql_Delete_contract sampleDatabase "non-existent").2.2.1 rfl (by decide)).2,
   ((mysql_Delete_contract
      { sampleDatabase with fault := some (errors.New "invalid connection") }
      "tx-1").2.2.2 (errors.New "invalid connection") rfl).2⟩

/-- C22 (the code departs from the claim). On a connection of `NewConnection`, which
counts as affected the rows an `UPDATE` changed, `DirectUserRepository.Update` of a user
whose row exists and already has the name `user.Name` changes no row, reads zero rows
affected and returns the error "direct user not found", although a row has `user.ID`. -/
theorem mysql_Update_same_name_not_found (db : Database) (user : DirectUser)
    (hfault : db.fault = none) (hparam : db.clientFoundRows = NewConnection.clientFoundRows)
    (hrow : db.direct_users.lookup user.ID = some user.Name) :
    mysql.DirectUserRepository.Update user db =
      (some (errors.New "direct user not found"), db) := by
  simp [mysql.DirectUserRepository.Update, Database.execUpdateDirectUser, hfault, hparam,
    hrow, NewConnection.clientFoundRows]

/-- Witness of C22: John Doe, stored under "u-1", is updated to the name John Doe. -/
theorem mysql_Update_same_name_not_found_witness :
    sampleDatabase.direct_users.lookup "u-1" = some "John Doe" ∧
    mysql.DirectUserRepository.Update { ID := "u-1", Name := "John Doe" } sampleDatabase =
      (some (errors.New "direct user not found"), sampleDatabase) :=
  ⟨by decide,
   mysql_Update_same_name_not_found sampleDatabase { ID := "u-1", Name := "John Doe" }
    rfl rfl (by decide)⟩

/-- Where `DirectUserRepository.Update` does what C22 says, on a working connection:
when no row has `user.ID` it returns "direct user not found" and leaves the database
unchanged; when a row has `user.ID` and either its name differs from `user.Name` or the
connection counts matched rows, it returns a nil error, the row has the name
`user.Name` afterwards, every other row and the table of transactions are unchanged. -/
theorem mysql_Update_other_cases (db : Database) (user : DirectUser)
    (hfault : db.fault = none) :
    (db.direct_users.lookup user.ID = none →
      mysql.DirectUserRepository.Update user db =
        (some (errors.New "direct user not found"), db)) ∧
    (∀ old : String, db.direct_users.lookup user.ID = some old →
      (old ≠ user.Name ∨ db.clientFoundRows = true) →
      (mysql.DirectUserRepository.Update user db).1 = none ∧
      (mysql.DirectUserRepository.Update user db).2.direct_users.lookup user.ID =
        some user.Name ∧
      (∀ j : String, j ≠ user.ID →
        (mysql.DirectUserRepository.Update user db).2.direct_users.lookup j =
          db.direct_users.lookup j) ∧
      (mysql.DirectUserRepository.Update user db).2.transactions = db.transactions) := by
  constructor
  · intro hrow
    simp [mysql.DirectUserRepository.Update, Database.execUpdateDirectUser, hfault, hrow]
  · intro old hrow hcase
    by_cases hsame : old = user.Name
    · have hc : db.clientFoundRows = true := by
        rcases hcase with h | h
        · exact absurd hsame h
        · exact h
      subst hsame
      simp [mysql.DirectUserRepository.Update, Database.execUpdateDirectUser, hfault,
        hrow, hc]
    · refine ⟨?_, ?_, ?_, ?_⟩
      · simp [mysql.DirectUserRepository.Update, Database.execUpdateDirectUser, hfault,
          hrow, hsame]
      · simp [mysql.DirectUserRepository.Update, Database.execUpdateDirectUser, hfault,
          hrow, hsame, AList.lookup_insert]
      · intro j hj
        simp [mysql.DirectUserRepository.Update, Database.execUpdateDirectUser, hfault,
          hrow, hsame, AList.lookup_insert_ne hj]
      · simp [mysql.DirectUserRepository.Update, Database.execUpdateDirectUser, hfault,
          hrow, hsame]

/-! ## HTTP handlers -/

/-- A fund name is valid exactly when it is the text of `CushonEquitiesFund`. -/
theorem fundName_valid_iff_text (s : String) :
    (FundName.mk s).IsValid = true ↔ s = "Cushon Equities Fund" := by
  unfold FundName.IsValid CushonEquitiesFund
  constructor
  · intro h
    by_cases hs : FundName.mk s = ⟨"Cushon Equities Fund"⟩
    · exact congrArg FundName.val hs
    · simp [hs] at h
  · intro h
    simp [h]

/-- C29. The fund list served by `TransactionHandler.GetFundNames` agrees with
`FundName.IsValid`: the handler responds 200 with a list in which every name is valid,
and every string `s` occurs in the list once if `FundName(s).IsValid()` is true and not
at all if it is false. -/
theorem GetFundNames_agrees_with_IsValid {σ : Type} (h : TransactionHandler σ) (s : String) :
    ∃ fundNames : List String,
      h.GetFundNames = ⟨http.StatusOK, Body.fundNames fundNames⟩ ∧
      (∀ name ∈ fundNames, (FundName.mk name).IsValid = true) ∧
      (s ∈ fundNames ↔ (FundName.mk s).IsValid = true) ∧
      fundNames.count s = if (FundName.mk s).IsValid = true then 1 else 0 := by
  refine ⟨["Cushon Equities Fund"], rfl, ?_, ?_, ?_⟩
  · intro name hname
    simp only [List.mem_singleton] at hname
    subst hname
    decide
  · rw [fundName_valid_iff_text s]
    simp
  · by_cases hs : s = "Cushon Equities Fund"
    · subst hs
      decide
    · have hv : ¬ (FundName.mk s).IsValid = true := fun hv =>
        hs ((fundName_valid_iff_text s).1 hv)
      have hne : ¬ ("Cushon Equities Fund" = s) := fun h1 => hs h1.symm
      simp [hv, List.count_cons, hne]

/-- Witness of C29: the list served over any service, asked for the known fund. -/
theorem GetFundNames_agrees_with_IsValid_witness :
    ∃ fundNames : List String,
      (NewTransactionHandler (failingTransactionService (errors.New "down"))).GetFundNames =
        ⟨http.StatusOK, Body.fundNames fundNames⟩ ∧
      (∀ name ∈ fundNames, (FundName.mk name).IsValid = true) ∧
      ("Cushon Equities Fund" ∈ fundNames ↔
        (FundName.mk "Cushon Equities Fund").IsValid = true) ∧
      fundNames.count "Cushon Equities Fund" =
        if (FundName.mk "Cushon Equities Fund").IsValid = true then 1 else 0 :=
  GetFundNames_agrees_with_IsValid
    (NewTransactionHandler (failingTransactionService (errors.New "down")))
    "Cushon Equities Fund"

/-- The status mapping of the get and delete handlers, the part of the claim on
handler statuses that the code keeps. For every id and every service: when the service
returns an error, GetTransaction and DeleteTransaction respond 400 with the message if
it is "transaction ID is required", 404 with the message if it is "transaction not
found", and 500 with "internal server error" for every other error; when the service
returns a nil error, GetTransaction responds 200 with the transaction and
DeleteTransaction responds 204 with no body. Whether a transaction that does not exist
yields 404 depends on the service reporting it as not found. -/
theorem TransactionHandler_get_delete_statuses {σ : Type} (svc : input.TransactionService σ)
    (id : String) (st : σ) :
    (∀ (r : Option Transaction) (e : GoError), (svc.GetTransaction id st).1 = (r, some e) →
      ((NewTransactionHandler svc).GetTransaction id st).1 =
        if e.msg = "transaction ID is required" then
          ⟨400, Body.error "transaction ID is required"⟩
        else if e.msg = "transaction not found" then
          ⟨404, Body.error "transaction not found"⟩
        else ⟨500, Body.error "internal server error"⟩) ∧
    (∀ r : Option Transaction, (svc.GetTransaction id st).1 = (r, none) →
      ((NewTransactionHandler svc).GetTransaction id st).1 = ⟨200, Body.transaction r⟩) ∧
    (∀ e : GoError, (svc.DeleteTransaction id st).1 = some e →
      ((NewTransactionHandler svc).DeleteTransaction id st).1 =
        if e.msg = "transaction ID is required" then
          ⟨400, Body.error "transaction ID is required"⟩
        else if e.msg = "transaction not found" then
          ⟨404, Body.error "transaction not found"⟩
        else ⟨500, Body.error "internal server error"⟩) ∧
    ((svc.DeleteTransaction id st).1 = none →
      ((NewTransactionHandler svc).DeleteTransaction id st).1 = ⟨204, Body.empty⟩) ∧
    ((NewTransactionHandler svc).GetTransaction id st).2 = (svc.GetTransaction id st).2 ∧
    ((NewTransactionHandler svc).DeleteTransaction id st).2 =
      (svc.DeleteTransaction id st).2 := by
  refine ⟨?_, ?_, ?_, ?_, ?_, ?_⟩
  · intro r e hget
    rcases h : svc.GetTransaction id st with ⟨⟨r1, err⟩, st1⟩
    rw [h] at hget
    simp only [Prod.mk.injEq] at hget
    obtain ⟨h1, h2⟩ := hget
    subst h1 h2
    simp only [TransactionHandler.GetTransaction, NewTransactionHandler, h,
      http.StatusBadRequest, http.StatusNotFound, http.StatusInternalServerError]
    split_ifs with h3 h4 <;> simp_all
  · intro r hget
    rcases h : svc.GetTransaction id st with ⟨⟨r1, err⟩, st1⟩
    rw [h] at hget
    simp only [Prod.mk.injEq] at hget
    obtain ⟨h1, h2⟩ := hget
    subst h1 h2
    simp [TransactionHandler.GetTransaction, NewTransactionHandler, h, http.StatusOK]
  · intro e hdel
    rcases h : svc.DeleteTransaction id st with ⟨err, st1⟩
    rw [h] at hdel
    simp only at hdel
    subst hdel
    simp only [TransactionHandler.DeleteTransaction, NewTransactionHandler, h,
      http.StatusBadRequest, http.StatusNotFound, http.StatusInternalServerError]
    split_ifs with h3 h4 <;> simp_all
  · intro hdel
    rcases h : svc.DeleteTransaction id st with ⟨err, st1⟩
    rw [h] at hdel
    simp only at hdel
    subst hdel
    simp [TransactionHandler.DeleteTransaction, NewTransactionHandler, h,
      http.StatusNoContent]
  · rcases h : svc.GetTransaction id st with ⟨⟨r1, _ | err⟩, st1⟩
    · simp [TransactionHandler.GetTransaction, NewTransactionHandler, h]
    · simp only [TransactionHandler.GetTransaction, NewTransactionHandler, h]
      split_ifs <;> rfl
  · rcases h : svc.DeleteTransaction id st with ⟨_ | err, st1⟩
    · simp [TransactionHandler.DeleteTransaction, NewTransactionHandler, h]
    · simp only [TransactionHandler.DeleteTransaction, NewTransactionHandler, h]
      split_ifs <;> rfl

/-- Instances of the status mapping, with the service over the in-memory repository,
which reports a missing id by an error: a transaction that does not exist yields 404 on
get and on delete, the empty id yields 400, a stored transaction yields 200 and 204, and
the error "connection refused" yields 500. -/
theorem TransactionHandler_get_delete_statuses_witness :
    ((NewTransactionHandler
        ((NewTransactionService MockTransactionRepository.asRepository).asPort sampleUUID)
      ).GetTransaction "non-existent" NewMockTransactionRepository).1 =
      ⟨404, Body.error "transaction not found"⟩ ∧
    ((NewTransactionHandler
        ((NewTransactionService MockTransactionRepository.asRepository).asPort sampleUUID)
      ).DeleteTransaction "non-existent" NewMockTransactionRepository).1 =
      ⟨404, Body.error "transaction not found"⟩ ∧
    ((NewTransactionHandler
        ((NewTransactionService MockTransactionRepository.asRepository).asPort sampleUUID)
      ).GetTransaction "" NewMockTransactionRepository).1 =
      ⟨400, Body.error "transaction ID is required"⟩ ∧
    ((NewTransactionHandler
        ((NewTransactionService MockTransactionRepository.asRepository).asPort sampleUUID)
      ).GetTransaction "tx-1"
        (MockTransactionRepository.Save sampleTransaction NewMockTransactionRepository).2).1 =
      ⟨200, Body.transaction (some sampleTransaction)⟩ ∧
    ((NewTransactionHandler
        ((NewTransactionService MockTransactionRepository.asRepository).asPort sampleUUID)
      ).DeleteTransaction "tx-1"
        (MockTransactionRepository.Save sampleTransaction NewMockTransactionRepository).2).1 =
      ⟨204, Body.empty⟩ ∧
    ((NewTransactionHandler (failingTransactionService (errors.New "connection refused"))
      ).DeleteTransaction "tx-1" ()).1 =
      ⟨500, Body.error "internal server error"⟩ :=
  ⟨(TransactionHandler_get_delete_statuses
      ((NewTransactionService MockTransactionRepository.asRepository).asPort sampleUUID)
      "non-existent" NewMockTransactionRepository).1 none
      (errors.New "transaction not found") rfl,
   (TransactionHandler_get_delete_statuses
      ((NewTransactionService MockTransactionRepository.asRepository).asPort sampleUUID)
      "non-existent" NewMockTransactionRepository).2.2.1
      (errors.New "transaction not found") rfl,
   (TransactionHandler_get_delete_statuses
      ((NewTransactionService MockTransactionRepository.asRepository).asPort sampleUUID)
      "" NewMockTransactionRepository).1 none
      (errors.New "transaction ID is required") rfl,
   (TransactionHandler_get_delete_statuses
      ((NewTransactionService MockTransactionRepository.asRepository).asPort sampleUUID)
      "tx-1" (MockTransactionRepository.Save sampleTransaction
        NewMockTransactionRepository).2).2.1 (some sampleTransaction) (by decide),
   (TransactionHandler_get_delete_statuses
      ((NewTransactionService MockTransactionRepository.asRepository).asPort sampleUUID)
      "tx-1" (MockTransactionRepository.Save sampleTransaction
        NewMockTransactionRepository).2).2.2.2.1 (by decide),
   (TransactionHandler_get_delete_statuses
      (failingTransactionService (errors.New "connection refused")) "tx-1" ()).2.2.1
      (errors.New "connection refused") rfl⟩

/-- C27. DirectUserHandler reports every service failure of update and delete as 500.
For every path id, every bound request and every service: UpdateDirectUser hands
`{ID: path id, Name: request name}` to the service and responds 500 with the message of
the error whenever the service returns an error, whatever it is, and 200 with that user
otherwise; DeleteDirectUser responds 500 with the message of the error whenever the
service returns an error and 204 with no body otherwise. -/
theorem DirectUserHandler_update_delete_statuses {σ : Type}
    (svc : input.DirectUserService σ) (id : String) (request : DirectUserRequestBody)
    (st : σ) :
    (∀ e : GoError,
      (svc.UpdateDirectUser (some { ID := id, Name := request.Name }) st).1 = some e →
      ((NewDirectUserHandler svc).UpdateDirectUser id (Except.ok request) st).1 =
        ⟨500, Body.error e.msg⟩) ∧
    ((svc.UpdateDirectUser (some { ID := id, Name := request.Name }) st).1 = none →
      ((NewDirectUserHandler svc).UpdateDirectUser id (Except.ok request) st).1 =
        ⟨200, Body.directUser (some { ID := id, Name := request.Name })⟩) ∧
    (∀ e : GoError, (svc.DeleteDirectUser id st).1 = some e →
      ((NewDirectUserHandler svc).DeleteDirectUser id st).1 = ⟨500, Body.error e.msg⟩) ∧
    ((svc.DeleteDirectUser id st).1 = none →
      ((NewDirectUserHandler svc).DeleteDirectUser id st).1 = ⟨204, Body.empty⟩) := by
  refine ⟨?_, ?_, ?_, ?_⟩
  · intro e hupd
    rcases h : svc.UpdateDirectUser (some { ID := id, Name := request.Name }) st
      with ⟨err, st1⟩
    rw [h] at hupd
    simp only at hupd
    subst hupd
    simp [DirectUserHandler.UpdateDirectUser, NewDirectUserHandler, h,
      http.StatusInternalServerError]
  · intro hupd
    rcases h : svc.UpdateDirectUser (some { ID := id, Name := request.Name }) st
      with ⟨err, st1⟩
    rw [h] at hupd
    simp only at hupd
    subst hupd
    simp [DirectUserHandler.UpdateDirectUser, NewDirectUserHandler, h, http.StatusOK]
  · intro e hdel
    rcases h : svc.DeleteDirectUser id st with ⟨err, st1⟩
    rw [h] at hdel
    simp only at hdel
    subst hdel
    simp [DirectUserHandler.DeleteDirectUser, NewDirectUserHandler, h,
      http.StatusInternalServerError]
  · intro hdel
    rcases h : svc.DeleteDirectUser id st with ⟨err, st1⟩
    rw [h] at hdel
    simp only at hdel
    subst hdel
    simp [DirectUserHandler.DeleteDirectUser, NewDirectUserHandler, h,
      http.StatusNoContent]

/-- Witness of C27, with the service over the in-memory repository: updating and
deleting a user that does not exist yield 500 with "direct user not found", updating and
deleting the stored John Doe yield 200 and 204. -/
theorem DirectUserHandler_update_delete_statuses_witness :
    ((NewDirectUserHandler
        ((NewDirectUserService MockDirectUserRepository.asRepository).asPort sampleUUID)
      ).UpdateDirectUser "non-existent" (Except.ok ⟨"Jane Doe"⟩)
        NewMockDirectUserRepository).1 =
      ⟨500, Body.error "direct user not found"⟩ ∧
    ((NewDirectUserHandler
        ((NewDirectUserService MockDirectUserRepository.asRepository).asPort sampleUUID)
      ).UpdateDirectUser "u-1" (Except.ok ⟨"Jane Doe"⟩)
        (MockDirectUserRepository.Save sampleUser NewMockDirectUserRepository).2).1 =
      ⟨200, Body.directUser (some { ID := "u-1", Name := "Jane Doe" })⟩ ∧
    ((NewDirectUserHandler
        ((NewDirectUserService MockDirectUserRepository.asRepository).asPort sampleUUID)
      ).DeleteDirectUser "non-existent" NewMockDirectUserRepository).1 =
      ⟨500, Body.error "direct user not found"⟩ ∧
    ((NewDirectUserHandler
        ((NewDirectUserService MockDirectUserRepository.asRepository).asPort sampleUUID)
      ).DeleteDirectUser "u-1"
        (MockDirectUserRepository.Save sampleUser NewMockDirectUserRepository).2).1 =
      ⟨204, Body.empty⟩ :=
  ⟨(DirectUserHandler_update_delete_statuses
      ((NewDirectUserService MockDirectUserRepository.asRepository).asPort sampleUUID)
      "non-existent" ⟨"Jane Doe"⟩ NewMockDirectUserRepository).1
      (errors.New "direct user not found") rfl,
   (DirectUserHandler_update_delete_statuses
      ((NewDirectUserService MockDirectUserRepository.asRepository).asPort sampleUUID)
      "u-1" ⟨"Jane Doe"⟩
      (MockDirectUserRepository.Save sampleUser NewMockDirectUserRepository).2).2.1
      (by decide),
   (DirectUserHandler_update_delete_statuses
      ((NewDirectUserService MockDirectUserRepository.asRepository).asPort sampleUUID)
      "non-existent" ⟨"Jane Doe"⟩ NewMockDirectUserRepository).2.2.1
      (errors.New "direct user not found") rfl,
   (DirectUserHandler_update_delete_statuses
      ((NewDirectUserService MockDirectUserRepository.asRepository).asPort sampleUUID)
      "u-1" ⟨"Jane Doe"⟩
      (MockDirectUserRepository.Save sampleUser NewMockDirectUserRepository).2).2.2.2
      (by decide)⟩

/-- C30. `TransactionHandler.CreateTransaction` does not distinguish validation failures
from store failures. For every request that binds and every service: whenever the
service returns an error, whatever it is, the handler responds 500 with the message of
that error; when the service returns a nil error it responds 201 with the created
transaction; so the status is 201 exactly when the service succeeds. -/
theorem TransactionHandler_create_statuses {σ : Type} (svc : input.TransactionService σ)
    (request : CreateTransactionRequest) (st : σ) :
    (∀ (r : Option Transaction) (e : GoError),
      (svc.CreateTransaction request.UserID request.Amount ⟨request.FundName⟩ st).1 =
        (r, some e) →
      ((NewTransactionHandler svc).CreateTransaction (Except.ok request) st).1 =
        ⟨500, Body.error e.msg⟩) ∧
    (∀ r : Option Transaction,
      (svc.CreateTransaction request.UserID request.Amount ⟨request.FundName⟩ st).1 =
        (r, none) →
      ((NewTransactionHandler svc).CreateTransaction (Except.ok request) st).1 =
        ⟨201, Body.transaction r⟩) ∧
    (((NewTransactionHandler svc).CreateTransaction (Except.ok request) st).1.status = 201 ↔
      (svc.CreateTransaction request.UserID request.Amount ⟨request.FundName⟩ st).1.2 =
        none) := by
  rcases h : svc.CreateTransaction request.UserID request.Amount ⟨request.FundName⟩ st
    with ⟨⟨r1, _ | err⟩, st1⟩
  · refine ⟨?_, ?_, ?_⟩
    · intro r e hc
      simp at hc
    · intro r hc
      simp only [Prod.mk.injEq, and_true] at hc
      subst hc
      simp [TransactionHandler.CreateTransaction, NewTransactionHandler, h,
        http.StatusCreated]
    · simp [TransactionHandler.CreateTransaction, NewTransactionHandler, h,
        http.StatusCreated]
  · refine ⟨?_, ?_, ?_⟩
    · intro r e hc
      simp only [Prod.mk.injEq, Option.some.injEq] at hc
      obtain ⟨-, h2⟩ := hc
      subst h2
      simp [TransactionHandler.CreateTransaction, NewTransactionHandler, h,
        http.StatusInternalServerError]
    · intro r hc
      simp at hc
    · simp [TransactionHandler.CreateTransaction, NewTransactionHandler, h,
        http.StatusInternalServerError]

/-- Witness of C30, with the service over the in-memory repository: the amount 0.00 and
the fund "Invalid Fund" yield 500 with the message of the validation error, a store
failure yields 500 with its message, and a valid request yields 201. -/
theorem TransactionHandler_create_statuses_witness :
    ((NewTransactionHandler
        ((NewTransactionService MockTransactionRepository.asRepository).asPort sampleUUID)
      ).CreateTransaction (Except.ok ⟨"user123", ⟨0, -2⟩, "Cushon Equities Fund"⟩)
        NewMockTransactionRepository).1 =
      ⟨500, Body.error "amount cannot be zero"⟩ ∧
    ((NewTransactionHandler
        ((NewTransactionService MockTransactionRepository.asRepository).asPort sampleUUID)
      ).CreateTransaction (Except.ok ⟨"user123", ⟨100050, -2⟩, "Invalid Fund"⟩)
        NewMockTransactionRepository).1 =
      ⟨500, Body.error "invalid fund name"⟩ ∧
    ((NewTransactionHandler (failingTransactionService (errors.New "connection refused"))
      ).CreateTransaction (Except.ok ⟨"user123", ⟨100050, -2⟩, "Cushon Equities Fund"⟩)
        ()).1 =
      ⟨500, Body.error "connection refused"⟩ ∧
    ((NewTransactionHandler
        ((NewTransactionService MockTransactionRepository.asRepository).asPort sampleUUID)
      ).CreateTransaction (Except.ok ⟨"user123", ⟨100050, -2⟩, "Cushon Equities Fund"⟩)
        NewMockTransactionRepository).1 =
      ⟨201, Body.transaction
        (some (NewTransaction sampleUUID "user123" ⟨100050, -2⟩ CushonEquitiesFund))⟩ :=
  ⟨(TransactionHandler_create_statuses
      ((NewTransactionService MockTransactionRepository.asRepository).asPort sampleUUID)
      ⟨"user123", ⟨0, -2⟩, "Cushon Equities Fund"⟩ NewMockTransactionRepository).1
      none (errors.New "amount cannot be zero") rfl,
   (TransactionHandler_create_statuses
      ((NewTransactionService MockTransactionRepository.asRepository).asPort sampleUUID)
      ⟨"user123", ⟨100050, -2⟩, "Invalid Fund"⟩ NewMockTransactionRepository).1
      none (errors.New "invalid fund name") rfl,
   (TransactionHandler_create_statuses
      (failingTransactionService (errors.New "connection refused"))
      ⟨"user123", ⟨100050, -2⟩, "Cushon Equities Fund"⟩ ()).1
      none (errors.New "connection refused") rfl,
   (TransactionHandler_create_statuses
      ((NewTransactionService MockTransactionRepository.asRepository).asPort sampleUUID)
      ⟨"user123", ⟨100050, -2⟩, "Cushon Equities Fund"⟩ NewMockTransactionRepository).2.1
      (some (NewTransaction sampleUUID "user123" ⟨100050, -2⟩ CushonEquitiesFund))
      (by decide)⟩

/-! ## Deleting and updating stored records -/

/-- Every call of the service keeps that each transaction of the in-memory store is
under its own ID, which is not empty. -/
theorem TransactionService.serve_keeps_keys (request : TransactionRequest)
    (m : MockTransactionRepository)
    (h : ∀ (key : String) (t : Transaction),
      m.transactions.lookup key = some t → key ≠ "" ∧ t.ID = key) :
    ∀ (key : String) (t : Transaction),
      ((NewTransactionService MockTransactionRepository.asRepository).serve request
        m).transactions.lookup key = some t → key ≠ "" ∧ t.ID = key := by
  cases request with
  | CreateTransaction id userID amount fundName =>
    simp only [TransactionService.serve, TransactionService.CreateTransaction,
      NewTransactionService, MockTransactionRepository.asRepository,
      MockTransactionRepository.Save]
    split_ifs with h1 h2 h3
    · exact h
    · exact h
    · exact h
    · intro key t ht
      simp only [alist_lookup_insert_eq, NewTransaction] at ht
      split_ifs at ht with h4
      · cases ht
        exact ⟨h4 ▸ id.text_ne, h4.symm⟩
      · exact h key t ht
  | GetTransaction id =>
    simp only [TransactionService.serve, TransactionService.GetTransaction,
      NewTransactionService, MockTransactionRepository.asRepository,
      MockTransactionRepository.FindByID]
    split_ifs with h1
    · exact h
    · cases m.transactions.lookup id <;> exact h
  | GetUserTransactions userID =>
    simp only [TransactionService.serve, TransactionService.GetUserTransactions,
      NewTransactionService, MockTransactionRepository.asRepository,
      MockTransactionRepository.FindByUserID]
    split_ifs with h1
    · exact h
    · exact h
  | UpdateTransaction transaction =>
    cases transaction with
    | none => exact h
    | some p =>
      simp only [TransactionService.serve, TransactionService.UpdateTransaction,
        NewTransactionService, MockTransactionRepository.asRepository,
        MockTransactionRepository.FindByID]
      split_ifs with h1 h2
      · exact h
      · exact h
      · cases hl : m.transactions.lookup p.ID with
        | none => exact h
        | some r =>
          have hr := h p.ID r hl
          have hl1 : m.transactions.lookup r.ID = some r := hr.2.symm ▸ hl
          intro key t ht
          simp only [MockTransactionRepository.Update, hl1] at ht
          simp only [hr.2, alist_lookup_insert_eq] at ht
          split_ifs at ht with h4
          · cases ht
            exact ⟨h4 ▸ hr.1, h4.symm⟩
          · exact h key t ht
  | DeleteTransaction id =>
    simp only [TransactionService.serve, TransactionService.DeleteTransaction,
      NewTransactionService, MockTransactionRepository.asRepository,
      MockTransactionRepository.FindByID]
    split_ifs with h1
    · exact h
    · cases hl : m.transactions.lookup id with
      | none => exact h
      | some r =>
        intro key t ht
        simp only [MockTransactionRepository.Delete, hl, alist_lookup_erase_eq] at ht
        split_ifs at ht with h4
        exact h key t ht

/-- In every store the in-memory transaction repository holds when it is used through
the service, each transaction is under its own ID, which is not empty. -/
theorem MockTransactionRepository.Served.keyed {m : MockTransactionRepository}
    (h : m.Served) (key : String) (t : Transaction)
    (hstored : m.transactions.lookup key = some t) : key ≠ "" ∧ t.ID = key := by
  obtain ⟨requests, rfl⟩ := h
  exact TransactionService.serveAll_keeps_ledger
    (NewTransactionService MockTransactionRepository.asRepository)
    (fun st => ∀ (key : String) (t : Transaction),
      st.transactions.lookup key = some t → key ≠ "" ∧ t.ID = key)
    (fun request st hst => TransactionService.serve_keeps_keys request st hst)
    requests NewMockTransactionRepository
    (fun key t ht => by simp [NewMockTransactionRepository, AList.lookup_empty] at ht)
    key t hstored

/-- C21. Delete moves an entity from persisted to non-existent. Over the in-memory
repositories, for every id under which a record is stored, DeleteDirectUser
(respectively DeleteTransaction) of the id returns a nil error, a following
GetDirectUser (respectively GetTransaction) of the id fails with the not-found error, a
second delete of the id fails with the not-found error and changes nothing, and what is
stored under every other id is the same as before the first delete. -/
theorem delete_removes_record (m : MockDirectUserRepository) (id : String)
    (u : DirectUser) (mt : MockTransactionRepository) (tid : String) (t : Transaction)
    (hm : m.Reachable) (hu : m.users.lookup id = some u)
    (hmt : mt.Served) (ht : mt.transactions.lookup tid = some t) :
    (∃ m1 : MockDirectUserRepository,
      (NewDirectUserService MockDirectUserRepository.asRepository).DeleteDirectUser id m =
        (none, m1) ∧
      (NewDirectUserService MockDirectUserRepository.asRepository).GetDirectUser id m1 =
        ((none, some (errors.New "direct user not found")), m1) ∧
      (NewDirectUserService MockDirectUserRepository.asRepository).DeleteDirectUser id m1 =
        (some (errors.New "direct user not found"), m1) ∧
      ∀ j : String, j ≠ id → m1.users.lookup j = m.users.lookup j) ∧
    (∃ mt1 : MockTransactionRepository,
      (NewTransactionService MockTransactionRepository.asRepository).DeleteTransaction
          tid mt = (none, mt1) ∧
      (NewTransactionService MockTransactionRepository.asRepository).GetTransaction
          tid mt1 = ((none, some (errors.New "transaction not found")), mt1) ∧
      (NewTransactionService MockTransactionRepository.asRepository).DeleteTransaction
          tid mt1 = (some (errors.New "transaction not found"), mt1) ∧
      ∀ j : String, j ≠ tid → mt1.transactions.lookup j = mt.transactions.lookup j) := by
  have hid : id ≠ "" := (hm.stored id u hu).1
  have htid : tid ≠ "" := (hmt.keyed tid t ht).1
  constructor
  · refine ⟨⟨m.users.erase id⟩, ?_, ?_, ?_, ?_⟩
    · simp [DirectUserService.DeleteDirectUser, NewDirectUserService,
        MockDirectUserRepository.asRepository, MockDirectUserRepository.FindByID,
        MockDirectUserRepository.Delete, hid, hu]
    · simp [DirectUserService.GetDirectUser, NewDirectUserService,
        MockDirectUserRepository.asRepository, MockDirectUserRepository.FindByID,
        hid, AList.lookup_erase]
    · simp [DirectUserService.DeleteDirectUser, NewDirectUserService,
        MockDirectUserRepository.asRepository, MockDirectUserRepository.FindByID,
        hid, AList.lookup_erase]
    · intro j hj
      exact AList.lookup_erase_ne hj
  · refine ⟨⟨mt.transactions.erase tid⟩, ?_, ?_, ?_, ?_⟩
    · simp [TransactionService.DeleteTransaction, NewTransactionService,
        MockTransactionRepository.asRepository, MockTransactionRepository.FindByID,
        MockTransactionRepository.Delete, htid, ht]
    · simp [TransactionService.GetTransaction, NewTransactionService,
        MockTransactionRepository.asRepository, MockTransactionRepository.FindByID,
        htid, AList.lookup_erase]
    · simp [TransactionService.DeleteTransaction, NewTransactionService,
        MockTransactionRepository.asRepository, MockTransactionRepository.FindByID,
        htid, AList.lookup_erase]
    · intro j hj
      exact AList.lookup_erase_ne hj

/-- The store the service leaves after creating the sample transaction of 25000.0000 for
"user123" in the empty in-memory repository is a store held through the service. -/
theorem sample_store_served :
    MockTransactionRepository.Served
      ((NewTransactionService MockTransactionRepository.asRepository).serveAll
        [TransactionRequest.CreateTransaction sampleUUID "user123" ⟨250000000, -4⟩
          CushonEquitiesFund] NewMockTransactionRepository) :=
  ⟨_, rfl⟩

/-- Witness of C21: John Doe under "u-1" and the sample transaction under its generated
identifier are deleted. -/
theorem delete_removes_record_witness :
    (∃ m1 : MockDirectUserRepository,
      (NewDirectUserService MockDirectUserRepository.asRepository).DeleteDirectUser "u-1"
          (MockDirectUserRepository.Save sampleUser NewMockDirectUserRepository).2 =
        (none, m1) ∧
      (NewDirectUserService MockDirectUserRepository.asRepository).GetDirectUser "u-1" m1 =
        ((none, some (errors.New "direct user not found")), m1) ∧
      (NewDirectUserService MockDirectUserRepository.asRepository).DeleteDirectUser "u-1"
          m1 = (some (errors.New "direct user not found"), m1) ∧
      ∀ j : String, j ≠ "u-1" → m1.users.lookup j =
        (MockDirectUserRepository.Save sampleUser
          NewMockDirectUserRepository).2.users.lookup j) ∧
    (∃ mt1 : MockTransactionRepository,
      (NewTransactionService MockTransactionRepository.asRepository).DeleteTransaction
          sampleUUID.String
          ((NewTransactionService MockTransactionRepository.asRepository).serveAll
            [TransactionRequest.CreateTransaction sampleUUID "user123" ⟨250000000, -4⟩
              CushonEquitiesFund] NewMockTransactionRepository) = (none, mt1) ∧
      (NewTransactionService MockTransactionRepository.asRepository).GetTransaction
          sampleUUID.String mt1 =
        ((none, some (errors.New "transaction not found")), mt1) ∧
      (NewTransactionService MockTransactionRepository.asRepository).DeleteTransaction
          sampleUUID.String mt1 = (some (errors.New "transaction not found"), mt1) ∧
      ∀ j : String, j ≠ sampleUUID.String → mt1.transactions.lookup j =
        ((NewTransactionService MockTransactionRepository.asRepository).serveAll
          [TransactionRequest.CreateTransaction sampleUUID "user123" ⟨250000000, -4⟩
            CushonEquitiesFund] NewMockTransactionRepository).transactions.lookup j) :=
  delete_removes_record
    (MockDirectUserRepository.Save sampleUser NewMockDirectUserRepository).2 "u-1"
    sampleUser
    ((NewTransactionService MockTransactionRepository.asRepository).serveAll
      [TransactionRequest.CreateTransaction sampleUUID "user123" ⟨250000000, -4⟩
        CushonEquitiesFund] NewMockTransactionRepository)
    sampleUUID.String
    (NewTransaction sampleUUID "user123" ⟨250000000, -4⟩ CushonEquitiesFund)
    (MockDirectUserRepository.Reachable.Save sampleUser MockDirectUserRepository.Reachable.new)
    (by decide) sample_store_served (by decide)

/-- C28. UpdateTransaction does not enforce the non-zero amount rule of
CreateTransaction. Over the in-memory repository, for every transaction `r` stored under
an id and every payload with that ID, a known FundName and an Amount that denotes
exactly zero, UpdateTransaction returns a nil error and the record stored under the id
afterwards is `r` with the Amount and the FundName of the payload: its Amount is zero. -/
theorem UpdateTransaction_accepts_zero_amount (m : MockTransactionRepository)
    (r payload : Transaction) (hm : m.Served)
    (hstored : m.transactions.lookup payload.ID = some r)
    (hfund : payload.FundName.IsValid = true) (hzero : payload.Amount.toRat = 0) :
    ∃ m1 : MockTransactionRepository,
      (NewTransactionService MockTransactionRepository.asRepository).UpdateTransaction
          (some payload) m = (Outcome.returned none, m1) ∧
      m1.transactions.lookup payload.ID =
        some { ID := r.ID, UserID := r.UserID, Amount := payload.Amount,
               FundName := payload.FundName } ∧
      payload.Amount.IsZero = true ∧
      ∀ j : String, j ≠ payload.ID → m1.transactions.lookup j = m.transactions.lookup j := by
  have hk := hm.keyed payload.ID r hstored
  have hl1 : m.transactions.lookup r.ID = some r := hk.2.symm ▸ hstored
  refine ⟨⟨m.transactions.insert r.ID
    { ID := r.ID, UserID := r.UserID, Amount := payload.Amount,
      FundName := payload.FundName }⟩, ?_, ?_, (Decimal.isZero_iff_toRat _).2 hzero, ?_⟩
  · simp [TransactionService.UpdateTransaction, NewTransactionService,
      MockTransactionRepository.asRepository, MockTransactionRepository.FindByID,
      MockTransactionRepository.Update, hk.1, hfund, hstored, hl1]
  · rw [← hk.2]
    simp [AList.lookup_insert]
  · intro j hj
    rw [← hk.2] at hj
    exact AList.lookup_insert_ne hj

/-- Witness of C28: the sample transaction of 25000.0000 is updated to 0.00. -/
theorem UpdateTransaction_accepts_zero_amount_witness :
    ∃ m1 : MockTransactionRepository,
      (NewTransactionService MockTransactionRepository.asRepository).UpdateTransaction
          (some { ID := sampleUUID.String, UserID := "user123", Amount := ⟨0, -2⟩,
                  FundName := CushonEquitiesFund })
          ((NewTransactionService MockTransactionRepository.asRepository).serveAll
            [TransactionRequest.CreateTransaction sampleUUID "user123" ⟨250000000, -4⟩
              CushonEquitiesFund] NewMockTransactionRepository) =
        (Outcome.returned none, m1) ∧
      m1.transactions.lookup sampleUUID.String =
        some { ID := sampleUUID.String, UserID := "user123", Amount := ⟨0, -2⟩,
               FundName := CushonEquitiesFund } ∧
      (⟨0, -2⟩ : Decimal).IsZero = true ∧
      ∀ j : String, j ≠ sampleUUID.String → m1.transactions.lookup j =
        ((NewTransactionService MockTransactionRepository.asRepository).serveAll
          [TransactionRequest.CreateTransaction sampleUUID "user123" ⟨250000000, -4⟩
            CushonEquitiesFund] NewMockTransactionRepository).transactions.lookup j :=
  UpdateTransaction_accepts_zero_amount
    ((NewTransactionService MockTransactionRepository.asRepository).serveAll
      [TransactionRequest.CreateTransaction sampleUUID "user123" ⟨250000000, -4⟩
        CushonEquitiesFund] NewMockTransactionRepository)
    (NewTransaction sampleUUID "user123" ⟨250000000, -4⟩ CushonEquitiesFund)
    { ID := sampleUUID.String, UserID := "user123", Amount := ⟨0, -2⟩,
      FundName := CushonEquitiesFund }
    sample_store_served (by decide) (by decide)
    ((Decimal.isZero_iff_toRat ⟨0, -2⟩).1 (by decide))

/-- C26. `TransactionHandler.UpdateTransaction` updates only amount and fund of the
addressed transaction. With the service over the in-memory repository, for every path id
under which a transaction `r` is stored and every bound request with amount `a` and a
known fund `f`, the handler calls GetTransaction and then UpdateTransaction and
responds 200 with the transaction whose ID is the path id, whose UserID is `r.UserID`,
whose Amount is `a` and whose FundName is `f`. With any service, for a path id that
the service reports as not found, the handler responds 404 with the non-empty message
"transaction not found" and its only call on the service is GetTransaction:
UpdateTransaction is not called. -/
theorem handler_UpdateTransaction_contract {σ : Type} (uuid : UUID)
    (m : MockTransactionRepository) (id : String) (r : Transaction)
    (request : UpdateTransactionRequest) (calls : List TransactionServiceCall)
    (svc : input.TransactionService σ) (st : σ) (missing : String)
    (hm : m.Served) (hstored : m.transactions.lookup id = some r)
    (hfund : (FundName.mk request.FundName).IsValid = true)
    (hmissing : ∃ (x : Option Transaction) (e : GoError),
      (svc.GetTransaction missing st).1 = (x, some e) ∧ e.msg = "transaction not found") :
    (∃ m1 : MockTransactionRepository,
      (NewTransactionHandler
          ((NewTransactionService MockTransactionRepository.asRepository).asPort
            uuid).traced).UpdateTransaction id (Except.ok request) (m, calls) =
        (Outcome.returned
          ⟨200, Body.transaction
            (some { ID := id, UserID := r.UserID, Amount := request.Amount,
                    FundName := ⟨request.FundName⟩ })⟩,
          (m1, calls ++ [TransactionServiceCall.GetTransaction id,
            TransactionServiceCall.UpdateTransaction
              (some { ID := id, UserID := r.UserID, Amount := request.Amount,
                      FundName := ⟨request.FundName⟩ })])) ∧
      m1.transactions.lookup id =
        some { ID := id, UserID := r.UserID, Amount := request.Amount,
               FundName := ⟨request.FundName⟩ }) ∧
    ((NewTransactionHandler svc.traced).UpdateTransaction missing (Except.ok request)
        (st, calls) =
      (Outcome.returned ⟨404, Body.error "transaction not found"⟩,
        ((svc.GetTransaction missing st).2,
          calls ++ [TransactionServiceCall.GetTransaction missing])) ∧
      "transaction not found" ≠ "") := by
  constructor
  · have hk := hm.keyed id r hstored
    obtain ⟨rid, ruser, ramount, rfund⟩ := r
    have hid : rid = id := hk.2
    subst hid
    refine ⟨⟨m.transactions.insert rid
      { ID := rid, UserID := ruser, Amount := request.Amount,
        FundName := ⟨request.FundName⟩ }⟩, ?_, by simp [AList.lookup_insert]⟩
    simp [TransactionHandler.UpdateTransaction, NewTransactionHandler,
      input.TransactionService.traced, TransactionService.asPort,
      TransactionService.GetTransaction, TransactionService.UpdateTransaction,
      NewTransactionService, MockTransactionRepository.asRepository,
      MockTransactionRepository.FindByID, MockTransactionRepository.Update,
      http.StatusOK, hk.1, hfund, hstored]
  · obtain ⟨x, e, hget, hmsg⟩ := hmissing
    refine ⟨?_, by decide⟩
    rcases h : svc.GetTransaction missing st with ⟨⟨x1, err⟩, st1⟩
    rw [h] at hget
    simp only [Prod.mk.injEq] at hget
    obtain ⟨h1, h2⟩ := hget
    subst h1 h2
    simp [TransactionHandler.UpdateTransaction, NewTransactionHandler,
      input.TransactionService.traced, http.StatusNotFound, h, hmsg]

/-- Witness of C26: the sample transaction of 25000.0000 is updated to 30000.0000 through
the handler, and the path id "non-existent" is answered with 404 after one call of
GetTransaction. -/
theorem handler_UpdateTransaction_contract_witness :
    (∃ m1 : MockTransactionRepository,
      (NewTransactionHandler
          ((NewTransactionService MockTransactionRepository.asRepository).asPort
            otherUUID).traced).UpdateTransaction sampleUUID.String
          (Except.ok ⟨⟨300000000, -4⟩, "Cushon Equities Fund"⟩)
          ((NewTransactionService MockTransactionRepository.asRepository).serveAll
            [TransactionRequest.CreateTransaction sampleUUID "user123" ⟨250000000, -4⟩
              CushonEquitiesFund] NewMockTransactionRepository, []) =
        (Outcome.returned
          ⟨200, Body.transaction
            (some { ID := sampleUUID.String, UserID := "user123",
                    Amount := ⟨300000000, -4⟩, FundName := CushonEquitiesFund })⟩,
          (m1, [TransactionServiceCall.GetTransaction sampleUUID.String,
            TransactionServiceCall.UpdateTransaction
              (some { ID := sampleUUID.String, UserID := "user123",
                      Amount := ⟨300000000, -4⟩, FundName := CushonEquitiesFund })])) ∧
      m1.transactions.lookup sampleUUID.String =
        some { ID := sampleUUID.String, UserID := "user123", Amount := ⟨300000000, -4⟩,
               FundName := CushonEquitiesFund }) ∧
    ((NewTransactionHandler
        ((NewTransactionService MockTransactionRepository.asRepository).asPort
          otherUUID).traced).UpdateTransaction "non-existent"
        (Except.ok ⟨⟨300000000, -4⟩, "Cushon Equities Fund"⟩)
        (NewMockTransactionRepository, []) =
      (Outcome.returned ⟨404, Body.error "transaction not found"⟩,
        (NewMockTransactionRepository,
          [TransactionServiceCall.GetTransaction "non-existent"])) ∧
      "transaction not found" ≠ "") :=
  handler_UpdateTransaction_contract otherUUID
    ((NewTransactionService MockTransactionRepository.asRepository).serveAll
      [TransactionRequest.CreateTransaction sampleUUID "user123" ⟨250000000, -4⟩
        CushonEquitiesFund] NewMockTransactionRepository)
    sampleUUID.String
    (NewTransaction sampleUUID "user123" ⟨250000000, -4⟩ CushonEquitiesFund)
    ⟨⟨300000000, -4⟩, "Cushon Equities Fund"⟩ []
    ((NewTransactionService MockTransactionRepository.asRepository).asPort otherUUID)
    NewMockTransactionRepository "non-existent"
    sample_store_served (by decide) (by decide)
    ⟨none, errors.New "transaction not found", rfl, rfl⟩

/-- Over a store that answers a missing id the way the MySQL adapter does, the service
does not report the missing transaction on delete, so the handler answers the delete of
a transaction that does not exist with 204; on get it answers 404. -/
theorem handler_missing_row_statuses :
    ((NewTransactionHandler ((NewTransactionService transactionRows).asPort sampleUUID)
      ).DeleteTransaction "non-existent" [sampleTransaction]).1 = ⟨204, Body.empty⟩ ∧
    ((NewTransactionHandler ((NewTransactionService transactionRows).asPort sampleUUID)
      ).GetTransaction "non-existent" [sampleTransaction]).1 =
      ⟨404, Body.error "transaction not found"⟩ := by
  constructor <;> decide

/-- C25 (the code departs from the claim). With the service over a repository whose
`FindByID` and `Delete` are those of the MySQL adapter, as wired in `cmd/api/main.go`,
whatever its other methods do: on a working connection, for a non-empty id that no row
of `transactions` has, `TransactionHandler.DeleteTransaction` responds 204 with no
body, not 404, and the database is unchanged; `TransactionHandler.GetTransaction` of
the same id responds 404 with "transaction not found". The lookup reports the missing
row as `(nil, nil)`, DeleteTransaction tests only its error, and `Delete` succeeds on
zero rows. -/
theorem handler_DeleteTransaction_missing_row_204
    (save update : Transaction → Database → Option GoError × Database)
    (findByUserID : String → Database → (List Transaction × Option GoError) × Database)
    (uuid : UUID) (id : String) (db : Database)
    (hid : id ≠ "") (hfault : db.fault = none)
    (hrow : db.transactions.lookup id = none) :
    (NewTransactionHandler
        ((NewTransactionService
          { Save := save, FindByID := mysql.TransactionRepository.FindByID,
            FindByUserID := findByUserID, Update := update,
            Delete := mysql.TransactionRepository.Delete }).asPort uuid)
      ).DeleteTransaction id db = (⟨204, Body.empty⟩, db) ∧
    (NewTransactionHandler
        ((NewTransactionService
          { Save := save, FindByID := mysql.TransactionRepository.FindByID,
            FindByUserID := findByUserID, Update := update,
            Delete := mysql.TransactionRepository.Delete }).asPort uuid)
      ).GetTransaction id db = (⟨404, Body.error "transaction not found"⟩, db) := by
  constructor
  · simp [TransactionHandler.DeleteTransaction, NewTransactionHandler,
      TransactionService.asPort, TransactionService.DeleteTransaction,
      NewTransactionService, mysql.TransactionRepository.FindByID,
      mysql.TransactionRepository.Delete, Database.queryRowTransaction,
      Database.execDeleteTransaction, http.StatusNoContent, hid, hfault, hrow]
  · simp [TransactionHandler.GetTransaction, NewTransactionHandler,
      TransactionService.asPort, TransactionService.GetTransaction,
      NewTransactionService, mysql.TransactionRepository.FindByID,
      Database.queryRowTransaction, http.StatusNotFound, errors.New, hid, hfault, hrow]

/-- Witness of C25: `DELETE /transactions/non-existent` on the sample database, which
holds only the transaction "tx-1", is answered with 204, and the get of the same id
with 404; the methods the two handlers never call are taken to fail. -/
theorem handler_DeleteTransaction_missing_row_204_witness :
    sampleDatabase.transactions.lookup "non-existent" = none ∧
    (NewTransactionHandler
        ((NewTransactionService
          { Save := fun _ db => (some (errors.New "not called"), db),
            FindByID := mysql.TransactionRepository.FindByID,
            FindByUserID := fun _ db => (([], some (errors.New "not called")), db),
            Update := fun _ db => (some (errors.New "not called"), db),
            Delete := mysql.TransactionRepository.Delete }).asPort sampleUUID)
      ).DeleteTransaction "non-existent" sampleDatabase =
      (⟨204, Body.empty⟩, sampleDatabase) ∧
    (NewTransactionHandler
        ((NewTransactionService
          { Save := fun _ db => (some (errors.New "not called"), db),
            FindByID := mysql.TransactionRepository.FindByID,
            FindByUserID := fun _ db => (([], some (errors.New "not called")), db),
            Update := fun _ db => (some (errors.New "not called"), db),
            Delete := mysql.TransactionRepository.Delete }).asPort sampleUUID)
      ).GetTransaction "non-existent" sampleDatabase =
      (⟨404, Body.error "transaction not found"⟩, sampleDatabase) :=
  ⟨by decide,
   handler_DeleteTransaction_missing_row_204
    (fun _ db => (some (errors.New "not called"), db))
    (fun _ db => (some (errors.New "not called"), db))
    (fun _ db => (([], some (errors.New "not called")), db))
    sampleUUID "non-existent" sampleDatabase (by decide) rfl (by decide)⟩

end Cushon
